import Mathlib

/-! Volume component of the audio DSP firmware (src/audio/volume.c)

A shallow embedding of the gain-scaling conversion routines, the format
dispatch table, the command handler and the per-period copy of the volume
component, followed by theorems about them.

Conventions of the embedding

* Machine integers are mathematical integers with explicit reductions:
  `to_uint32`, `to_int32`, `to_int16`, `to_uint16` are the C conversions to
  the respective fixed-width type (two's complement, `int` is 32 bits wide).
* A C array indexed by a channel number is a map `Nat → Nat`; the entries
  at indices `< STREAM_MAX_CHANNELS` are the entries of the C array.
* A buffer owns its sample storage: `mem p` is the sample stored at byte
  address `p`.  A 16-bit load reads it through `to_int16`, a 32-bit load
  through `to_int32`.  Cursors and bounds are byte addresses.
* A C `for (i = 0; i < n; i++)` loop is `for_loop body n`.
-/

namespace Volume

/-! ## Constants -/

/-- Constants that volume.c takes from the headers reef/stream.h and
reef/audio/component.h, which are not among the sources: they are parameters
of the embedding. -/
structure reef_consts where
  STREAM_MAX_CHANNELS : Nat
  STREAM_FORMAT_S16_LE : Nat
  STREAM_FORMAT_S32_LE : Nat
  COMP_CMD_VOLUME : Int
  COMP_CMD_MUTE : Int
  COMP_CMD_UNMUTE : Int

/-- The value of `EINVAL` in errno.h. -/
def EINVAL : Int := 22

/-- The delay in milliseconds between two ramp steps: `#define VOL_RAMP_MS 2`. -/
def VOL_RAMP_MS : Nat := 2

/-- The gain change of one ramp step: `#define VOL_RAMP_STEP 2048`. -/
def VOL_RAMP_STEP : Nat := 2048

/-! ## Fixed-width integer conversions -/

/-- Conversion to `uint32_t`: reduction modulo 2^32. -/
def to_uint32 (x : Int) : Int := x % 4294967296

/-- Conversion to `int32_t`: the representative of `x` modulo 2^32 in
`[-2^31, 2^31)`. -/
def to_int32 (x : Int) : Int := (x + 2147483648) % 4294967296 - 2147483648

/-- Conversion to `uint16_t`: reduction modulo 2^16. -/
def to_uint16 (x : Int) : Int := x % 65536

/-- Conversion to `int16_t`: the representative of `x` modulo 2^16 in
`[-2^15, 2^15)`. -/
def to_int16 (x : Int) : Int := (x + 32768) % 65536 - 32768

/-! ## Data model -/

/-- The four conversion routines a `scale_vol` function pointer can hold. -/
inductive vol_func where
  | s16_to_s16
  | s16_to_s32
  | s32_to_s16
  | s32_to_s32
  deriving DecidableEq, Repr

/-- The private data of the component, `struct comp_data`: current, target and
pre-mute gain per channel (`uint32_t` each), the cached conversion routine
(`none` while the pointer has not been set) and the ramp work item, of which
the embedding keeps the delay it is scheduled with (`none` while it is not
scheduled). -/
structure comp_data where
  volume : Nat → Nat
  tvolume : Nat → Nat
  mvolume : Nat → Nat
  scale_vol : Option vol_func
  volwork : Option Nat

/-- The fields of `dev->params.pcm` that volume.c reads. -/
structure pcm_params where
  channels : Nat
  period_frames : Nat

/-- A ring buffer, `struct comp_buffer`: base address, capacity in bytes, read
and write cursor, the sample storage, and the sample formats
`source->params.pcm.format` and `sink->params.pcm.format` of the devices at
its two ends. -/
structure comp_buffer where
  addr : Nat
  size : Nat
  r_ptr : Nat
  w_ptr : Nat
  mem : Nat → Int
  source_format : Nat
  sink_format : Nat

/-- The volume device, `struct comp_dev`, with its private data and the one
source buffer and one sink buffer it is linked to. -/
structure comp_dev where
  params : pcm_params
  drvdata : comp_data
  bsource : comp_buffer
  bsink : comp_buffer

/-- The payload of a command, `struct comp_volume`: one value per channel. -/
structure comp_volume where
  volume : Nat → Nat

/-! ## Loops -/

/-- The loop `for (i = 0; i < n; i++) body(i)` over a state. -/
def for_loop {σ : Type} (body : Nat → σ → σ) : Nat → σ → σ
  | 0, s => s
  | n + 1, s => body n (for_loop body n s)

/-! ## Conversion routines -/

/-- The local variables of a conversion routine that change in its loops: the
pointers `src` and `dest`, and the storage `dest` points into. -/
structure scale_state where
  src : Nat
  dest : Nat
  out : Nat → Int

/-- The value `(val * cd->volume[i]) >> 16` of the four routines, where `val`
is a signed 32-bit operand and the gain is a `uint32_t`: the usual arithmetic
conversions make both operands `uint32_t`, the product is taken modulo 2^32
and the shift is a logical one. -/
def scaled (val : Int) (vol : Nat) : Int :=
  to_uint32 (to_uint32 val * to_uint32 vol) / 65536

/-- The body of the inner loop of a routine: one sample is loaded from `src`,
converted with the gain `vol` and stored at `dest`, then `dest++; src++;`
with elements of `dw` and `sw` bytes. -/
def scale_one (sw dw : Nat) (conv : Int → Nat → Int) (srcmem : Nat → Int) (vol : Nat)
    (st : scale_state) : scale_state :=
  { src := st.src + sw
    dest := st.dest + dw
    out := Function.update st.out st.dest (conv (srcmem st.src) vol) }

/-- The two nested loops of a routine: for every channel `i` below `channels`
and every frame `j` below `frames`, the body with the gain `volume i`. -/
def scale_loops (sw dw : Nat) (conv : Int → Nat → Int) (srcmem : Nat → Int)
    (volume : Nat → Nat) (channels frames : Nat) (st : scale_state) : scale_state :=
  for_loop (fun (i : Nat) (st : scale_state) =>
      for_loop (fun (_ : Nat) (st : scale_state) =>
        scale_one sw dw conv srcmem (volume i) st) frames st)
    channels st

/-- The common shape of the four routines: `src` starts at the read cursor of
`source`, `dest` at the write cursor of `sink`; the loops run over
`dev->params.pcm.channels` and `dev->params.pcm.period_frames` with the gains
`cd->volume`; at the end the two cursors are set to the pointers.  The result
is the pair of `sink` and `source` after the call. -/
def vol_scale (sw dw : Nat) (conv : Int → Nat → Int)
    (dev : comp_dev) (sink source : comp_buffer) : comp_buffer × comp_buffer :=
  let cd := dev.drvdata
  let st : scale_state :=
    scale_loops sw dw conv source.mem cd.volume dev.params.channels dev.params.period_frames
      { src := source.r_ptr, dest := sink.w_ptr, out := sink.mem }
  ({ sink with w_ptr := st.dest, mem := st.out }, { source with r_ptr := st.src })

/-- The statement `int32_t val = (int32_t)*src; *dest = (val * cd->volume[i]) >> 16;`
with `int16_t *src` and `int32_t *dest`. -/
def s16_to_s32_sample (cell : Int) (vol : Nat) : Int :=
  to_int32 (scaled (to_int16 cell) vol)

/-- The statement `*dest = (int16_t)((*src * cd->volume[i]) >> 16);` with
`int32_t *src` and `int16_t *dest`. -/
def s32_to_s16_sample (cell : Int) (vol : Nat) : Int :=
  to_int16 (scaled (to_int32 cell) vol)

/-- The statement `*dest = (*src * cd->volume[i]) >> 16;` with `int32_t *src`
and `int32_t *dest`. -/
def s32_to_s32_sample (cell : Int) (vol : Nat) : Int :=
  to_int32 (scaled (to_int32 cell) vol)

/-- The statement `int32_t val = (int32_t)*src; *dest = (int16_t)((val * cd->volume[i]) >> 16);`
with `int16_t *src` and `int16_t *dest`. -/
def s16_to_s16_sample (cell : Int) (vol : Nat) : Int :=
  to_int16 (scaled (to_int16 cell) vol)

/-- Copy and scale from a 16-bit source buffer to a 32-bit sink buffer. -/
def vol_s16_to_s32 (dev : comp_dev) (sink source : comp_buffer) :
    comp_buffer × comp_buffer :=
  vol_scale 2 4 s16_to_s32_sample dev sink source

/-- Copy and scale from a 32-bit source buffer to a 16-bit sink buffer. -/
def vol_s32_to_s16 (dev : comp_dev) (sink source : comp_buffer) :
    comp_buffer × comp_buffer :=
  vol_scale 4 2 s32_to_s16_sample dev sink source

/-- Copy and scale from a 32-bit source buffer to a 32-bit sink buffer. -/
def vol_s32_to_s32 (dev : comp_dev) (sink source : comp_buffer) :
    comp_buffer × comp_buffer :=
  vol_scale 4 4 s32_to_s32_sample dev sink source

/-- Copy and scale from a 16-bit source buffer to a 16-bit sink buffer. -/
def vol_s16_to_s16 (dev : comp_dev) (sink source : comp_buffer) :
    comp_buffer × comp_buffer :=
  vol_scale 2 2 s16_to_s16_sample dev sink source

/-- A call through a `scale_vol` pointer: arguments are `(dev, sink, source)`. -/
def vol_func.call : vol_func → comp_dev → comp_buffer → comp_buffer →
    comp_buffer × comp_buffer
  | .s16_to_s16 => vol_s16_to_s16
  | .s16_to_s32 => vol_s16_to_s32
  | .s32_to_s16 => vol_s32_to_s16
  | .s32_to_s32 => vol_s32_to_s32

/-- Width in bytes of one element of the source of a routine. -/
def vol_func.src_width : vol_func → Nat
  | .s16_to_s16 => 2
  | .s16_to_s32 => 2
  | .s32_to_s16 => 4
  | .s32_to_s32 => 4

/-- Width in bytes of one element of the destination of a routine. -/
def vol_func.dest_width : vol_func → Nat
  | .s16_to_s16 => 2
  | .s16_to_s32 => 4
  | .s32_to_s16 => 2
  | .s32_to_s32 => 4

/-- The value a routine loads from a source cell: a load through its source
pointer type. -/
def vol_func.load : vol_func → Int → Int
  | .s16_to_s16 => to_int16
  | .s16_to_s32 => to_int16
  | .s32_to_s16 => to_int32
  | .s32_to_s32 => to_int32

/-- The conversion of a routine to the type of its destination. -/
def vol_func.store : vol_func → Int → Int
  | .s16_to_s16 => to_int16
  | .s16_to_s32 => to_int32
  | .s32_to_s16 => to_int16
  | .s32_to_s32 => to_int32

/-- The per-sample statement of a routine. -/
def vol_func.sample : vol_func → Int → Nat → Int
  | .s16_to_s16 => s16_to_s16_sample
  | .s16_to_s32 => s16_to_s32_sample
  | .s32_to_s16 => s32_to_s16_sample
  | .s32_to_s32 => s32_to_s32_sample

/-! ## Format dispatch -/

/-- An entry of the dispatch table, `struct comp_func_map`: source format and
sink format (`uint16_t` each) and the routine. -/
structure comp_func_map where
  source : Nat
  sink : Nat
  func : vol_func

/-- The table `func_map`; the format constants are stored in `uint16_t`
fields. -/
def func_map (K : reef_consts) : List comp_func_map :=
  [ { source := K.STREAM_FORMAT_S16_LE % 65536, sink := K.STREAM_FORMAT_S16_LE % 65536,
      func := vol_func.s16_to_s16 },
    { source := K.STREAM_FORMAT_S16_LE % 65536, sink := K.STREAM_FORMAT_S32_LE % 65536,
      func := vol_func.s16_to_s32 },
    { source := K.STREAM_FORMAT_S32_LE % 65536, sink := K.STREAM_FORMAT_S16_LE % 65536,
      func := vol_func.s32_to_s16 },
    { source := K.STREAM_FORMAT_S32_LE % 65536, sink := K.STREAM_FORMAT_S32_LE % 65536,
      func := vol_func.s32_to_s32 } ]

/-- The loop of `volume_prepare` over the remaining entries of the table: the
first entry whose two formats match sets `scale_vol` and returns 0; when the
entries are used up the result is `-EINVAL`. -/
def volume_prepare_loop (source_format sink_format : Nat) (cd : comp_data) :
    List comp_func_map → comp_data × Int
  | [] => (cd, -EINVAL)
  | e :: rest =>
    if source_format ≠ e.source then
      volume_prepare_loop source_format sink_format cd rest
    else if sink_format ≠ e.sink then
      volume_prepare_loop source_format sink_format cd rest
    else
      ({ cd with scale_vol := some e.func }, 0)

/-- The function `volume_prepare`: the formats are those of the device that
feeds the source buffer and of the device that drains the sink buffer. -/
def volume_prepare (K : reef_consts) (dev : comp_dev) : comp_dev × Int :=
  let source := dev.bsource
  let sink := dev.bsink
  let r := volume_prepare_loop source.source_format sink.sink_format dev.drvdata (func_map K)
  ({ dev with drvdata := r.1 }, r.2)

/-! ## Commands -/

/-- The function `volume_set_chan`; its parameter `vol` has type `uint16_t`,
so the argument is converted to that type. -/
def volume_set_chan (dev : comp_dev) (chan : Nat) (vol : Nat) : comp_dev :=
  let cd := dev.drvdata
  { dev with drvdata := { cd with tvolume := Function.update cd.tvolume chan (vol % 65536) } }

/-- The function `volume_set_chan_mute`. -/
def volume_set_chan_mute (dev : comp_dev) (chan : Nat) : comp_dev :=
  let cd := dev.drvdata
  let cd := { cd with mvolume := Function.update cd.mvolume chan (cd.volume chan) }
  { dev with drvdata := { cd with tvolume := Function.update cd.tvolume chan 0 } }

/-- The function `volume_set_chan_unmute`. -/
def volume_set_chan_unmute (dev : comp_dev) (chan : Nat) : comp_dev :=
  let cd := dev.drvdata
  { dev with drvdata := { cd with tvolume := Function.update cd.tvolume chan (cd.mvolume chan) } }

/-- Modelled from the spec: the function `work_schedule_default` of
reef/work.h, which is not among the sources.  The spec says that scheduling
arms or re-arms the item to fire no earlier than the delay from now, without
creating a second entry; the embedding records the delay in the item. -/
def work_schedule_default (_w : Option Nat) (timeout : Nat) : Option Nat :=
  some timeout

/-- The call `work_schedule_default(&cd->volwork, VOL_RAMP_MS)`. -/
def schedule_volwork (dev : comp_dev) : comp_dev :=
  let cd := dev.drvdata
  { dev with drvdata := { cd with volwork := work_schedule_default cd.volwork VOL_RAMP_MS } }

/-- The function `volume_cmd`: the device after the call and the value
returned.  The `switch` is a chain of comparisons with the case labels. -/
def volume_cmd (K : reef_consts) (dev : comp_dev) (cmd : Int) (cv : comp_volume) :
    comp_dev × Int :=
  if cmd = K.COMP_CMD_VOLUME then
    let dev := for_loop (fun (i : Nat) (d : comp_dev) => volume_set_chan d i (cv.volume i))
      dev.params.channels dev
    (schedule_volwork dev, 0)
  else if cmd = K.COMP_CMD_MUTE then
    let dev := for_loop (fun (i : Nat) (d : comp_dev) =>
        if cv.volume i ≠ 0 then volume_set_chan_mute d i else d)
      dev.params.channels dev
    (schedule_volwork dev, 0)
  else if cmd = K.COMP_CMD_UNMUTE then
    let dev := for_loop (fun (i : Nat) (d : comp_dev) =>
        if cv.volume i ≠ 0 then volume_set_chan_unmute d i else d)
      dev.params.channels dev
    (schedule_volwork dev, 0)
  else
    (dev, -EINVAL)

/-! ## Per-period copy -/

/-- The function `volume_copy`: the device (with its two buffers) after the
call and the value returned; `none` when `scale_vol` has not been set, where
the C code calls through a pointer that was never assigned.  The call is
`cd->scale_vol(dev, source, sink)`: the source buffer is passed for the
parameter `sink` of the routine and the sink buffer for its parameter
`source`.  The second test compares with `source->addr + sink->size`. -/
def volume_copy (dev : comp_dev) : Option (comp_dev × Int) :=
  let cd := dev.drvdata
  let source := dev.bsource
  let sink := dev.bsink
  match cd.scale_vol with
  | none => none
  | some f =>
    let r := f.call dev source sink
    let source := r.1
    let sink := r.2
    let source :=
      if source.r_ptr ≥ source.addr + source.size then { source with r_ptr := source.addr }
      else source
    let sink :=
      if sink.w_ptr ≥ source.addr + sink.size then { sink with w_ptr := sink.addr }
      else sink
    some ({ dev with bsource := source, bsink := sink }, (dev.params.period_frames : Int))

/-! ## Inputs used by the worked examples -/

/-- A choice of the header constants for the worked examples. -/
def example_consts : reef_consts :=
  { STREAM_MAX_CHANNELS := 8
    STREAM_FORMAT_S16_LE := 1
    STREAM_FORMAT_S32_LE := 2
    COMP_CMD_VOLUME := 100
    COMP_CMD_MUTE := 101
    COMP_CMD_UNMUTE := 102 }

/-- A list of samples laid out from byte address `base` with elements of
`width` bytes; every other cell holds 0. -/
def mem_of_list (base width : Nat) (xs : List Int) : Nat → Int :=
  fun p => if base ≤ p ∧ (p - base) % width = 0 then xs.getD ((p - base) / width) 0 else 0

/-- The per-channel array with the given leading entries and 0 elsewhere. -/
def chan_of_list (xs : List Nat) : Nat → Nat :=
  fun i => xs.getD i 0

/-- A buffer of `size` bytes at address `addr` with both cursors at its base. -/
def example_buffer (addr size : Nat) (mem : Nat → Int) (fmt : Nat) : comp_buffer :=
  { addr := addr, size := size, r_ptr := addr, w_ptr := addr, mem := mem,
    source_format := fmt, sink_format := fmt }

/-- The samples a buffer holds at `n` consecutive elements of `width` bytes
from address `p`. -/
def samples_at (b : comp_buffer) (p width n : Nat) : List Int :=
  (List.range n).map (fun k => b.mem (p + width * k))

/-- The device of the worked scenario: 2 channels, 4 frames per period,
current gains 32768 and 65536, the 32-bit to 32-bit routine selected; the
source buffer holds 100, 200, 100, 200, 100, 200, 100, 200 and the sink
buffer holds 7 in every cell. -/
def scenario_dev : comp_dev :=
  { params := { channels := 2, period_frames := 4 }
    drvdata :=
      { volume := chan_of_list [32768, 65536]
        tvolume := chan_of_list [32768, 65536]
        mvolume := chan_of_list []
        scale_vol := some vol_func.s32_to_s32
        volwork := none }
    bsource := example_buffer 1000 64
      (mem_of_list 1000 4 [100, 200, 100, 200, 100, 200, 100, 200]) 2
    bsink := example_buffer 2000 64 (fun _ => 7) 2 }

/-- A device with 1 channel and 1 frame per period at unity gain (65536),
whose source buffer holds the sample -1. -/
def unity_dev : comp_dev :=
  { params := { channels := 1, period_frames := 1 }
    drvdata :=
      { volume := fun _ => 65536
        tvolume := fun _ => 65536
        mvolume := fun _ => 0
        scale_vol := none
        volwork := none }
    bsource := example_buffer 1000 64 (mem_of_list 1000 4 [-1]) 2
    bsink := example_buffer 2000 64 (fun _ => 0) 2 }

/-- A device with 2 channels and 2 frames per period at unity gain (65536),
whose source buffer holds the 16-bit samples -32768, -1, 5, 32767. -/
def unity16_dev : comp_dev :=
  { params := { channels := 2, period_frames := 2 }
    drvdata :=
      { volume := fun _ => 65536
        tvolume := fun _ => 65536
        mvolume := fun _ => 0
        scale_vol := some vol_func.s16_to_s16
        volwork := none }
    bsource := example_buffer 1000 64 (mem_of_list 1000 2 [-32768, -1, 5, 32767]) 1
    bsink := example_buffer 2000 64 (fun _ => 0) 1 }

/-- A device with 1 channel and 1 frame per period at unity gain (65536),
whose source buffer holds the 32-bit sample 40000. -/
def wrap_dev : comp_dev :=
  { params := { channels := 1, period_frames := 1 }
    drvdata :=
      { volume := fun _ => 65536
        tvolume := fun _ => 65536
        mvolume := fun _ => 0
        scale_vol := some vol_func.s32_to_s16
        volwork := none }
    bsource := example_buffer 1000 64 (mem_of_list 1000 4 [40000]) 2
    bsink := example_buffer 2000 64 (fun _ => 0) 1 }

/-- A device with 2 channels and 3 frames per period, gains 12345 and 99999,
whose source buffer holds 0 in every cell and whose sink buffer holds 9 in
every cell. -/
def silent_dev : comp_dev :=
  { params := { channels := 2, period_frames := 3 }
    drvdata :=
      { volume := chan_of_list [12345, 99999]
        tvolume := chan_of_list [12345, 99999]
        mvolume := fun _ => 0
        scale_vol := some vol_func.s16_to_s32
        volwork := none }
    bsource := example_buffer 1000 64 (fun _ => 0) 1
    bsink := example_buffer 2000 64 (fun _ => 9) 2 }

/-- A device with 2 channels whose channel 0 is muted: current gain 32768,
target 0, pre-mute gain 32768; channel 1 is at unity. -/
def muted_dev : comp_dev :=
  { params := { channels := 2, period_frames := 4 }
    drvdata :=
      { volume := chan_of_list [32768, 65536]
        tvolume := chan_of_list [0, 65536]
        mvolume := chan_of_list [32768, 0]
        scale_vol := some vol_func.s16_to_s16
        volwork := none }
    bsource := example_buffer 1000 64 (fun _ => 0) 1
    bsink := example_buffer 2000 64 (fun _ => 0) 1 }

/-! ## Volume ramp -/

/-- The body of the loop of `vol_work` for channel `i`, over the private data
and the local variable `again`.  The gains are `uint32_t`: `+=` and `-=` are
taken modulo 2^32. -/
def vol_work_chan (i : Nat) (s : comp_data × Nat) : comp_data × Nat :=
  let cd := s.1
  let again := s.2
  if cd.volume i = cd.tvolume i then
    (cd, again)
  else if cd.volume i < cd.tvolume i then
    let cd := { cd with
      volume := Function.update cd.volume i ((cd.volume i + VOL_RAMP_STEP) % 4294967296) }
    if cd.volume i > cd.tvolume i then
      ({ cd with volume := Function.update cd.volume i (cd.tvolume i) }, again)
    else
      (cd, 1)
  else
    let cd := { cd with
      volume := Function.update cd.volume i
        ((cd.volume i + 4294967296 - VOL_RAMP_STEP) % 4294967296) }
    if cd.volume i < cd.tvolume i then
      ({ cd with volume := Function.update cd.volume i (cd.tvolume i) }, again)
    else
      (cd, 1)

/-- The function `vol_work`: the device after the call and the value returned
(`VOL_RAMP_MS` to be called again, 0 to stop). -/
def vol_work (dev : comp_dev) : comp_dev × Nat :=
  let r := for_loop vol_work_chan dev.params.channels (dev.drvdata, 0)
  ({ dev with drvdata := r.1 }, if r.2 ≠ 0 then VOL_RAMP_MS else 0)

/-- The device after `n` consecutive invocations of `vol_work`. -/
def vol_work_iter : Nat → comp_dev → comp_dev
  | 0, dev => dev
  | n + 1, dev => (vol_work (vol_work_iter n dev)).1

/-- The value returned by invocation number `k` (counted from 1) of
consecutive invocations of `vol_work`. -/
def vol_work_ret (k : Nat) (dev : comp_dev) : Nat :=
  (vol_work (vol_work_iter (k - 1) dev)).2

/-- What the loop body of `vol_work` does to one channel with current gain `c`
and target gain `t`: the new current gain, and whether `again` is set. -/
def ramp_step (c t : Nat) : Nat × Bool :=
  if c = t then (c, false)
  else if c < t then
    if (c + VOL_RAMP_STEP) % 4294967296 > t then (t, false)
    else ((c + VOL_RAMP_STEP) % 4294967296, true)
  else
    if (c + 4294967296 - VOL_RAMP_STEP) % 4294967296 < t then (t, false)
    else ((c + 4294967296 - VOL_RAMP_STEP) % 4294967296, true)

/-- The number of invocations a pure ramp-up takes according to the claim:
the maximum over the channels `i < channels` of
`ceil((target i - current i) / 2048)`. -/
def ramp_up_invocations (dev : comp_dev) : Nat :=
  (List.range dev.params.channels).foldl
    (fun m i => max m ((dev.drvdata.tvolume i - dev.drvdata.volume i + 2047) / 2048)) 0

/-- A device with `channels` channels, the given current and target gains,
pre-mute gains 0 and no routine selected. -/
def ramp_dev (channels : Nat) (volume tvolume : List Nat) : comp_dev :=
  { params := { channels := channels, period_frames := 4 }
    drvdata :=
      { volume := chan_of_list volume
        tvolume := chan_of_list tvolume
        mvolume := fun _ => 0
        scale_vol := none
        volwork := none }
    bsource := example_buffer 1000 64 (fun _ => 0) 1
    bsink := example_buffer 2000 64 (fun _ => 0) 1 }

/-! ## Command sequences, component creation -/

/-- The device after the three commands COMP_CMD_VOLUME with the levels `v`,
COMP_CMD_MUTE with `mask` and COMP_CMD_UNMUTE with `mask`, in this order. -/
def volume_mute_unmute (K : reef_consts) (dev : comp_dev) (v mask : comp_volume) : comp_dev :=
  (volume_cmd K
    (volume_cmd K (volume_cmd K dev K.COMP_CMD_VOLUME v).1 K.COMP_CMD_MUTE mask).1
    K.COMP_CMD_UNMUTE mask).1

/-- The function `volume_new`.  `rmalloc` and `rfree` are not among the
sources: the results of the two allocations are parameters (`none` when the
allocation fails); `cd_block` is what the block allocated for the private data
holds.  The private data is attached to the device and the work item is
initialised, not scheduled.  Nothing is assigned to the gains or to
`scale_vol`: they keep what the block holds, and `scale_vol` is `some f` only
if the block happens to hold the address of the routine `f` (a block that
served an earlier component), `none` otherwise.  The field `id` of the device
is not part of the embedding.  The result `none` is `NULL`. -/
def volume_new (dev_block : Option comp_dev) (cd_block : Option comp_data) :
    Option comp_dev :=
  match dev_block with
  | none => none
  | some dev =>
    match cd_block with
    | none => none
    | some cd => some { dev with drvdata := { cd with volwork := none } }

/-- A buffer with the given base, capacity and cursors, holding 7 in every
cell, between devices of the 32-bit format of the worked examples. -/
def placed_buffer (addr size r_ptr w_ptr : Nat) : comp_buffer :=
  { addr := addr, size := size, r_ptr := r_ptr, w_ptr := w_ptr, mem := fun _ => 7,
    source_format := 2, sink_format := 2 }

/-- A prepared device (vol_s32_to_s32, 2 channels, 4 frames per period, so 32
bytes per period, unity gains) between the given source and sink buffer. -/
def placed_dev (source sink : comp_buffer) : comp_dev :=
  { params := { channels := 2, period_frames := 4 }
    drvdata :=
      { volume := fun _ => 65536
        tvolume := fun _ => 65536
        mvolume := fun _ => 0
        scale_vol := some vol_func.s32_to_s32
        volwork := none }
    bsource := source
    bsink := sink }

/-- The device block of the worked examples of volume_new: 2 channels, 4
frames per period, a source buffer holding 5 and a sink buffer holding 9 in
every cell, between devices of a format (7) that is not in the table of the
worked examples. -/
def new_dev_block : comp_dev :=
  { params := { channels := 2, period_frames := 4 }
    drvdata :=
      { volume := fun _ => 0, tvolume := fun _ => 0, mvolume := fun _ => 0,
        scale_vol := none, volwork := none }
    bsource := example_buffer 1000 64 (fun _ => 5) 7
    bsink := example_buffer 2000 64 (fun _ => 9) 7 }

/-- A device as volume_new returns it from a block for the private data that
holds zeros and no routine address. -/
def new_dev : Option comp_dev :=
  volume_new (some new_dev_block)
    (some { volume := fun _ => 0, tvolume := fun _ => 0, mvolume := fun _ => 0,
            scale_vol := none, volwork := none })

/-- A device as volume_new returns it from a block for the private data that
served an earlier component: it still holds the gains 65536 and the address
of vol_s32_to_s32. -/
def stale_dev : Option comp_dev :=
  volume_new (some new_dev_block)
    (some { volume := fun _ => 65536, tvolume := fun _ => 65536, mvolume := fun _ => 0,
            scale_vol := some vol_func.s32_to_s32, volwork := some 2 })

/-! ## Baytrail DAI table (src/platform/baytrail/dai.c) -/

/-- The platform data of an endpoint, `plat_data` of `struct dai`. -/
structure dai_plat_data where
  base : Nat
  irq : Nat
  tx_handshake : Nat
  rx_handshake : Nat

/-- An endpoint, `struct dai`: its identifier and its platform data.  The
field `ops` points to the same `ssp_ops` in every entry and is not part of
the embedding. -/
structure dai where
  uuid : Nat
  plat_data : dai_plat_data

/-- Constants that dai.c takes from headers which are not among the sources:
the identifiers `COMP_UUID(COMP_VENDOR_INTEL, DAI_UUID_SSPn)` and the base
addresses, interrupt numbers and DMA handshakes of the three SSP ports.  They
are parameters of the embedding. -/
structure baytrail_consts where
  UUID_SSP0 : Nat
  UUID_SSP1 : Nat
  UUID_SSP2 : Nat
  SSP0 : dai_plat_data
  SSP1 : dai_plat_data
  SSP2 : dai_plat_data

/-- The table `ssp[3]`. -/
def ssp (B : baytrail_consts) : List dai :=
  [ { uuid := B.UUID_SSP0, plat_data := B.SSP0 },
    { uuid := B.UUID_SSP1, plat_data := B.SSP1 },
    { uuid := B.UUID_SSP2, plat_data := B.SSP2 } ]

/-- The loop of `dai_get` over the entries from index `i` on: the index of the
first entry whose `uuid` equals the argument, `none` when the entries are used
up. -/
def dai_get_loop (uuid : Nat) : List dai → Nat → Option Nat
  | [], _ => none
  | d :: rest, i => if d.uuid = uuid then some i else dai_get_loop uuid rest (i + 1)

/-- The function `dai_get`: `some i` for the result `&ssp[i]`, `none` for
`NULL`. -/
def dai_get (B : baytrail_consts) (uuid : Nat) : Option Nat :=
  dai_get_loop uuid (ssp B) 0

/-- A choice of the platform constants for the worked examples; the second
and third port carry the same identifier. -/
def example_baytrail : baytrail_consts :=
  { UUID_SSP0 := 10
    UUID_SSP1 := 11
    UUID_SSP2 := 11
    SSP0 := { base := 100, irq := 1, tx_handshake := 2, rx_handshake := 3 }
    SSP1 := { base := 200, irq := 4, tx_handshake := 5, rx_handshake := 6 }
    SSP2 := { base := 300, irq := 7, tx_handshake := 8, rx_handshake := 9 } }

end Volume

namespace Volume

/-! ## The loops of the conversion routines -/

theorem for_loop_succ {σ : Type} (body : Nat → σ → σ) (n : Nat) (s : σ) :
    for_loop body (n + 1) s = body n (for_loop body n s) := rfl

theorem scale_frames_spec (sw dw : Nat) (conv : Int → Nat → Int) (srcmem : Nat → Int)
    (g : Nat) (hdw : 0 < dw) (n : Nat) (st : scale_state) :
    (for_loop (fun (_ : Nat) (st : scale_state) => scale_one sw dw conv srcmem g st) n st).src
        = st.src + sw * n ∧
    (for_loop (fun (_ : Nat) (st : scale_state) => scale_one sw dw conv srcmem g st) n st).dest
        = st.dest + dw * n ∧
    (∀ q, q < st.dest →
      (for_loop (fun (_ : Nat) (st : scale_state) => scale_one sw dw conv srcmem g st) n st).out q
        = st.out q) ∧
    (∀ q, st.dest + dw * n ≤ q →
      (for_loop (fun (_ : Nat) (st : scale_state) => scale_one sw dw conv srcmem g st) n st).out q
        = st.out q) ∧
    (∀ j, j < n →
      (for_loop (fun (_ : Nat) (st : scale_state) => scale_one sw dw conv srcmem g st) n st).out
          (st.dest + dw * j) = conv (srcmem (st.src + sw * j)) g) := by
  induction n with
  | zero => simp [for_loop]
  | succ n ih =>
    obtain ⟨h1, h2, h3, h4, h5⟩ := ih
    simp only [for_loop_succ]
    generalize for_loop (fun (_ : Nat) (st : scale_state) =>
      scale_one sw dw conv srcmem g st) n st = T at h1 h2 h3 h4 h5 ⊢
    simp only [scale_one]
    refine ⟨?_, ?_, ?_, ?_, ?_⟩
    · rw [h1, Nat.mul_succ]; omega
    · rw [h2, Nat.mul_succ]; omega
    · intro q hq
      rw [Function.update_noteq (by rw [h2]; omega)]
      exact h3 q hq
    · intro q hq
      rw [Nat.mul_succ] at hq
      rw [Function.update_noteq (by rw [h2]; omega)]
      exact h4 q (by omega)
    · intro j hj
      rcases Nat.lt_succ_iff_lt_or_eq.mp hj with hlt | heq
      · have hmul : dw * j < dw * n := Nat.mul_lt_mul_of_pos_left hlt hdw
        rw [Function.update_noteq (by rw [h2]; omega)]
        exact h5 j hlt
      · subst heq
        rw [h2, Function.update_same, h1]

theorem scale_loops_spec (sw dw : Nat) (conv : Int → Nat → Int) (srcmem : Nat → Int)
    (volume : Nat → Nat) (hdw : 0 < dw) (frames c : Nat) (st : scale_state) :
    (scale_loops sw dw conv srcmem volume c frames st).src = st.src + sw * (c * frames) ∧
    (scale_loops sw dw conv srcmem volume c frames st).dest = st.dest + dw * (c * frames) ∧
    (∀ q, q < st.dest → (scale_loops sw dw conv srcmem volume c frames st).out q = st.out q) ∧
    (∀ q, st.dest + dw * (c * frames) ≤ q →
      (scale_loops sw dw conv srcmem volume c frames st).out q = st.out q) ∧
    (∀ k, k < c * frames →
      (scale_loops sw dw conv srcmem volume c frames st).out (st.dest + dw * k)
        = conv (srcmem (st.src + sw * k)) (volume (k / frames))) := by
  induction c with
  | zero => simp [scale_loops, for_loop]
  | succ c ih =>
    obtain ⟨h1, h2, h3, h4, h5⟩ := ih
    unfold scale_loops at h1 h2 h3 h4 h5 ⊢
    simp only [for_loop_succ]
    generalize for_loop (fun (i : Nat) (st : scale_state) =>
      for_loop (fun (_ : Nat) (st : scale_state) =>
        scale_one sw dw conv srcmem (volume i) st) frames st) c st = T at h1 h2 h3 h4 h5 ⊢
    obtain ⟨f1, f2, f3, f4, f5⟩ := scale_frames_spec sw dw conv srcmem (volume c) hdw frames T
    have e1 : sw * ((c + 1) * frames) = sw * (c * frames) + sw * frames := by
      rw [Nat.succ_mul, Nat.mul_add]
    have e2 : dw * ((c + 1) * frames) = dw * (c * frames) + dw * frames := by
      rw [Nat.succ_mul, Nat.mul_add]
    refine ⟨?_, ?_, ?_, ?_, ?_⟩
    · rw [f1, h1, e1]; omega
    · rw [f2, h2, e2]; omega
    · intro q hq
      rw [f3 q (by rw [h2]; omega)]
      exact h3 q hq
    · intro q hq
      rw [f4 q (by rw [h2]; omega)]
      exact h4 q (by omega)
    · intro k hk
      rw [Nat.succ_mul] at hk
      by_cases hlt : k < c * frames
      · have hmul : dw * k < dw * (c * frames) := Nat.mul_lt_mul_of_pos_left hlt hdw
        rw [f3 _ (by rw [h2]; omega)]
        exact h5 k hlt
      · have hk2 : k = c * frames + (k - c * frames) := by omega
        have hj : k - c * frames < frames := by omega
        have hdiv : k / frames = c :=
          Nat.div_eq_of_lt_le (by omega) (by rw [Nat.succ_mul]; omega)
        have ed : st.dest + dw * k = T.dest + dw * (k - c * frames) := by
          rw [h2]
          conv_lhs => rw [hk2, Nat.mul_add]
          omega
        have es : st.src + sw * k = T.src + sw * (k - c * frames) := by
          rw [h1]
          conv_lhs => rw [hk2, Nat.mul_add]
          omega
        rw [ed, f5 _ hj, hdiv, es]

/-- What a routine of the common shape does: output element `k` of the period
is the conversion of input element `k` with the gain of channel
`k / period_frames`; storage below the write cursor and from the end of the
period on is untouched; both cursors advance by `channels * period_frames`
elements; nothing else of the two buffers changes. -/
theorem vol_scale_spec (sw dw : Nat) (conv : Int → Nat → Int) (hdw : 0 < dw)
    (dev : comp_dev) (sink source : comp_buffer) :
    (∀ k, k < dev.params.channels * dev.params.period_frames →
      (vol_scale sw dw conv dev sink source).1.mem (sink.w_ptr + dw * k)
        = conv (source.mem (source.r_ptr + sw * k))
            (dev.drvdata.volume (k / dev.params.period_frames))) ∧
    (∀ q, q < sink.w_ptr ∨
        sink.w_ptr + dw * (dev.params.channels * dev.params.period_frames) ≤ q →
      (vol_scale sw dw conv dev sink source).1.mem q = sink.mem q) ∧
    (vol_scale sw dw conv dev sink source).1.w_ptr
      = sink.w_ptr + dw * (dev.params.channels * dev.params.period_frames) ∧
    (vol_scale sw dw conv dev sink source).2.r_ptr
      = source.r_ptr + sw * (dev.params.channels * dev.params.period_frames) ∧
    (vol_scale sw dw conv dev sink source).1.r_ptr = sink.r_ptr ∧
    (vol_scale sw dw conv dev sink source).1.addr = sink.addr ∧
    (vol_scale sw dw conv dev sink source).1.size = sink.size ∧
    (vol_scale sw dw conv dev sink source).2.w_ptr = source.w_ptr ∧
    (vol_scale sw dw conv dev sink source).2.addr = source.addr ∧
    (vol_scale sw dw conv dev sink source).2.size = source.size ∧
    (vol_scale sw dw conv dev sink source).2.mem = source.mem := by
  obtain ⟨h1, h2, h3, h4, h5⟩ := scale_loops_spec sw dw conv source.mem dev.drvdata.volume hdw
    dev.params.period_frames dev.params.channels
    { src := source.r_ptr, dest := sink.w_ptr, out := sink.mem }
  refine ⟨?_, ?_, ?_, ?_, rfl, rfl, rfl, rfl, rfl, rfl, rfl⟩
  · intro k hk
    exact h5 k hk
  · intro q hq
    rcases hq with hq | hq
    · exact h3 q hq
    · exact h4 q hq
  · exact h2
  · exact h1

theorem vol_func_call_eq (r : vol_func) (dev : comp_dev) (sink source : comp_buffer) :
    r.call dev sink source = vol_scale r.src_width r.dest_width r.sample dev sink source := by
  cases r <;> rfl

theorem vol_func_dest_width_pos (r : vol_func) : 0 < r.dest_width := by
  cases r <;> decide

theorem vol_func_sample_eq (r : vol_func) (cell : Int) (vol : Nat) :
    r.sample cell vol = r.store (scaled (r.load cell) vol) := by
  cases r <;> rfl

/-! ## Arithmetic of one sample -/

theorem scaled_eq (val : Int) (vol : Nat) :
    scaled val vol = (val * (vol : Int)) % 4294967296 / 65536 := by
  unfold scaled to_uint32
  rw [← Int.mul_emod]

theorem scaled_of_nonneg (val : Int) (vol : Nat) (h0 : 0 ≤ val)
    (hp : val * (vol : Int) < 4294967296) :
    scaled val vol = val * (vol : Int) / 65536 := by
  rw [scaled_eq]
  have hnn : 0 ≤ val * (vol : Int) := Int.mul_nonneg h0 (Int.ofNat_nonneg vol)
  rw [Int.emod_eq_of_lt hnn hp]

theorem to_int16_scaled (val : Int) (vol : Nat) :
    to_int16 (scaled val vol) = (val * (vol : Int) / 65536 + 32768) % 65536 - 32768 := by
  rw [scaled_eq]
  unfold to_int16
  generalize val * (vol : Int) = P
  omega

theorem scaled_zero (vol : Nat) : scaled 0 vol = 0 := by
  rw [scaled_eq]
  simp

theorem store_zero (r : vol_func) : r.store 0 = 0 := by
  cases r <;> rfl

theorem load_range_16 (cell : Int) : -32768 ≤ to_int16 cell ∧ to_int16 cell < 32768 := by
  unfold to_int16
  omega

theorem load_range_32 (cell : Int) :
    -2147483648 ≤ to_int32 cell ∧ to_int32 cell < 2147483648 := by
  unfold to_int32
  omega

theorem unity_s16_to_s16 (cell : Int) :
    s16_to_s16_sample cell 65536 = to_int16 cell := by
  unfold s16_to_s16_sample
  rw [to_int16_scaled]
  have h := load_range_16 cell
  generalize to_int16 cell = s at h ⊢
  push_cast
  omega

theorem block_index_lt (c frames k : Nat) (hk : k < c * frames) : k / frames < c := by
  have hf : 0 < frames := by
    rcases Nat.eq_zero_or_pos frames with h | h
    · subst h; simp at hk
    · exact h
  exact (Nat.div_lt_iff_lt_mul hf).mpr hk

/-! ## Conversion routines: the claims -/

/-- C2, counterexample.  In the worked scenario (vol_s32_to_s32, 2 channels,
4 frames, gains 32768 and 65536, input 100, 200, 100, 200, 100, 200, 100, 200)
the routine produces 50, 100, 50, 100, 100, 200, 100, 200 and not
50, 200, 50, 200, 50, 200, 50, 200: output sample 1 is 100, not
`(input[1] * gain[1 mod 2]) >> 16 = 200`. -/
theorem c2_interleaved_gain_counterexample :
    samples_at (vol_s32_to_s32 scenario_dev scenario_dev.bsink scenario_dev.bsource).1 2000 4 8
        = [50, 100, 50, 100, 100, 200, 100, 200] ∧
    samples_at (vol_s32_to_s32 scenario_dev scenario_dev.bsink scenario_dev.bsource).1 2000 4 8
        ≠ [50, 200, 50, 200, 50, 200, 50, 200] ∧
    (vol_s32_to_s32 scenario_dev scenario_dev.bsink scenario_dev.bsource).1.mem (2000 + 4 * 1)
        ≠ scenario_dev.bsource.mem (1000 + 4 * 1)
            * (scenario_dev.drvdata.volume (1 % 2) : Int) / 65536 := by
  decide

/-- C2, amended.  For every conversion routine, every channel count and every
frame count, output sample `k` of the period (`k < channels * period_frames`)
is the routine's scaling of input sample `k` by the gain of channel
`k / period_frames`: the period is treated as `channels` consecutive blocks of
`period_frames` samples, block `i` scaled by the gain of channel `i`.  For a
non-negative input sample whose product with that gain is below 2^32 the
value is `(input[k] * gain[k / period_frames]) >> 16` in the width of the
destination. -/
theorem c2_output_block_gain (r : vol_func) (dev : comp_dev) (sink source : comp_buffer)
    (k : Nat) (hk : k < dev.params.channels * dev.params.period_frames) :
    (r.call dev sink source).1.mem (sink.w_ptr + r.dest_width * k)
        = r.store (scaled (r.load (source.mem (source.r_ptr + r.src_width * k)))
            (dev.drvdata.volume (k / dev.params.period_frames))) ∧
    (0 ≤ r.load (source.mem (source.r_ptr + r.src_width * k)) →
      r.load (source.mem (source.r_ptr + r.src_width * k))
          * (dev.drvdata.volume (k / dev.params.period_frames) : Int) < 4294967296 →
      (r.call dev sink source).1.mem (sink.w_ptr + r.dest_width * k)
        = r.store (r.load (source.mem (source.r_ptr + r.src_width * k))
            * (dev.drvdata.volume (k / dev.params.period_frames) : Int) / 65536)) := by
  have h := (vol_scale_spec r.src_width r.dest_width r.sample (vol_func_dest_width_pos r)
    dev sink source).1 k hk
  rw [← vol_func_call_eq, vol_func_sample_eq] at h
  refine ⟨h, ?_⟩
  intro h0 hp
  rw [h, scaled_of_nonneg _ _ h0 hp]

/-- C2, amended, on the worked scenario: output sample 1 is
`(200 * 32768) >> 16 = 100`, scaled with the gain of channel `1 / 4 = 0`. -/
theorem c2_output_block_gain_witness :
    1 < scenario_dev.params.channels * scenario_dev.params.period_frames ∧
    (vol_func.s32_to_s32.call scenario_dev scenario_dev.bsink scenario_dev.bsource).1.mem
        (scenario_dev.bsink.w_ptr + vol_func.s32_to_s32.dest_width * 1) = 100 :=
  ⟨by decide,
   ((c2_output_block_gain vol_func.s32_to_s32 scenario_dev scenario_dev.bsink
      scenario_dev.bsource 1 (by decide)).2 (by decide) (by decide)).trans (by decide)⟩

/-- C3, the code at a negative sample.  With unity gain 65536 and the sample
-1, whose product -65536 fits in a signed 32-bit integer, both routines with a
32-bit destination write 65535, whereas `floor(-1 * 65536 / 2^16) = -1`: the
product is formed in unsigned 32-bit arithmetic and shifted logically. -/
theorem c3_negative_sample_32bit_dest :
    (vol_s32_to_s32 unity_dev unity_dev.bsink unity_dev.bsource).1.mem 2000 = 65535 ∧
    (vol_s16_to_s32 unity_dev unity_dev.bsink unity_dev.bsource).1.mem 2000 = 65535 ∧
    to_int32 (unity_dev.bsource.mem 1000) = -1 ∧
    to_int16 (unity_dev.bsource.mem 1000) = -1 ∧
    unity_dev.drvdata.volume 0 = 65536 ∧
    (-1 : Int) * 65536 / 65536 = -1 := by
  decide

/-- C4.  For vol_s16_to_s16 with the gain of every channel equal to unity
(65536), for every channel count and frame count and every signed 16-bit input
sample, negative ones included, output sample `k` equals input sample `k`. -/
theorem c4_unity_s16_lossless (dev : comp_dev) (sink source : comp_buffer)
    (hunity : ∀ i, i < dev.params.channels → dev.drvdata.volume i = 65536)
    (k : Nat) (hk : k < dev.params.channels * dev.params.period_frames)
    (hlo : -32768 ≤ source.mem (source.r_ptr + 2 * k))
    (hhi : source.mem (source.r_ptr + 2 * k) < 32768) :
    (vol_s16_to_s16 dev sink source).1.mem (sink.w_ptr + 2 * k)
      = source.mem (source.r_ptr + 2 * k) := by
  have h := (vol_scale_spec 2 2 s16_to_s16_sample (by decide) dev sink source).1 k hk
  have hg := hunity _ (block_index_lt _ _ _ hk)
  unfold vol_s16_to_s16
  rw [h, hg, unity_s16_to_s16]
  unfold to_int16
  omega

/-- C5.  For the two routines with a 16-bit destination, for every source
sample `s` (as loaded in the source width) and every gain `g`, the value
written is `floor(s * g / 2^16)` reduced modulo 2^16 into the signed 16-bit
range: it lies in `[-2^15, 2^15)`, so nothing saturates. -/
theorem c5_narrowing_wraps (r : vol_func) (hr : r.dest_width = 2) (dev : comp_dev)
    (sink source : comp_buffer) (k : Nat)
    (hk : k < dev.params.channels * dev.params.period_frames) :
    (r.call dev sink source).1.mem (sink.w_ptr + 2 * k)
      = (r.load (source.mem (source.r_ptr + r.src_width * k))
            * (dev.drvdata.volume (k / dev.params.period_frames) : Int) / 65536 + 32768)
          % 65536 - 32768 := by
  have h := (vol_scale_spec r.src_width r.dest_width r.sample (vol_func_dest_width_pos r)
    dev sink source).1 k hk
  rw [← vol_func_call_eq, vol_func_sample_eq, hr] at h
  rw [h]
  cases r
  · exact to_int16_scaled _ _
  · simp [vol_func.dest_width] at hr
  · exact to_int16_scaled _ _
  · simp [vol_func.dest_width] at hr

/-- C6.  For each of the four routines, every channel count, frame count and
gain array: when every input sample of the period is zero, every output
sample of the period is zero. -/
theorem c6_zero_in_zero_out (r : vol_func) (dev : comp_dev) (sink source : comp_buffer)
    (hzero : ∀ k, k < dev.params.channels * dev.params.period_frames →
      r.load (source.mem (source.r_ptr + r.src_width * k)) = 0)
    (k : Nat) (hk : k < dev.params.channels * dev.params.period_frames) :
    (r.call dev sink source).1.mem (sink.w_ptr + r.dest_width * k) = 0 := by
  have h := (vol_scale_spec r.src_width r.dest_width r.sample (vol_func_dest_width_pos r)
    dev sink source).1 k hk
  rw [← vol_func_call_eq, vol_func_sample_eq, hzero k hk, scaled_zero, store_zero] at h
  exact h

/-- C4 on a concrete period: at unity gain the 16-bit samples -32768, -1, 5,
32767 pass unchanged; here sample 1, which is -1. -/
theorem c4_unity_s16_lossless_witness :
    (∀ i, i < unity16_dev.params.channels → unity16_dev.drvdata.volume i = 65536) ∧
    1 < unity16_dev.params.channels * unity16_dev.params.period_frames ∧
    (vol_s16_to_s16 unity16_dev unity16_dev.bsink unity16_dev.bsource).1.mem
        (unity16_dev.bsink.w_ptr + 2 * 1) = -1 :=
  ⟨fun _ _ => rfl, by decide,
   (c4_unity_s16_lossless unity16_dev unity16_dev.bsink unity16_dev.bsource
      (fun _ _ => rfl) 1 (by decide) (by decide) (by decide)).trans (by decide)⟩

/-- C5 on a concrete sample: vol_s32_to_s16 at unity gain writes -25536 for
the sample 40000, which is 40000 reduced modulo 2^16 into the signed range. -/
theorem c5_narrowing_wraps_witness :
    vol_func.s32_to_s16.dest_width = 2 ∧
    0 < wrap_dev.params.channels * wrap_dev.params.period_frames ∧
    (vol_func.s32_to_s16.call wrap_dev wrap_dev.bsink wrap_dev.bsource).1.mem
        (wrap_dev.bsink.w_ptr + 2 * 0) = -25536 :=
  ⟨rfl, by decide,
   (c5_narrowing_wraps vol_func.s32_to_s16 rfl wrap_dev wrap_dev.bsink wrap_dev.bsource 0
      (by decide)).trans (by decide)⟩

/-- C6 on a concrete period: vol_s16_to_s32 with gains 12345 and 99999 turns a
silent period into zeros; here output sample 4. -/
theorem c6_zero_in_zero_out_witness :
    (∀ k, k < silent_dev.params.channels * silent_dev.params.period_frames →
      vol_func.s16_to_s32.load
        (silent_dev.bsource.mem (silent_dev.bsource.r_ptr + vol_func.s16_to_s32.src_width * k))
        = 0) ∧
    4 < silent_dev.params.channels * silent_dev.params.period_frames ∧
    (vol_func.s16_to_s32.call silent_dev silent_dev.bsink silent_dev.bsource).1.mem
        (silent_dev.bsink.w_ptr + vol_func.s16_to_s32.dest_width * 4) = 0 :=
  ⟨fun _ _ => rfl, by decide,
   c6_zero_in_zero_out vol_func.s16_to_s32 silent_dev silent_dev.bsink silent_dev.bsource
      (fun _ _ => rfl) 4 (by decide)⟩

/-! ## Per-period copy: the claims -/

/-- C1, the code on the worked scenario.  The source buffer (base 1000) holds
100, 200, 100, 200, 100, 200, 100, 200, the sink buffer (base 2000) holds 7 in
every cell, gains are 32768 and 65536.  One call of volume_copy returns 4
(period_frames), but it reads at the read cursor of the SINK buffer and writes
at the write cursor of the SOURCE buffer: the sink samples are still 7, the
source samples are overwritten with the scaled sink samples 3, 3, 3, 3, 7, 7,
7, 7, the sink read cursor and the source write cursor advance by 32 bytes,
and the source read cursor and the sink write cursor stay at their base. -/
theorem c1_copy_swaps_buffers :
    (volume_copy scenario_dev).map (fun r => r.2) = some 4 ∧
    (volume_copy scenario_dev).map (fun r => samples_at r.1.bsink 2000 4 8)
      = some [7, 7, 7, 7, 7, 7, 7, 7] ∧
    (volume_copy scenario_dev).map (fun r => samples_at r.1.bsource 1000 4 8)
      = some [3, 3, 3, 3, 7, 7, 7, 7] ∧
    (volume_copy scenario_dev).map (fun r => r.1.bsource.r_ptr) = some 1000 ∧
    (volume_copy scenario_dev).map (fun r => r.1.bsink.w_ptr) = some 2000 ∧
    (volume_copy scenario_dev).map (fun r => r.1.bsource.w_ptr) = some 1032 ∧
    (volume_copy scenario_dev).map (fun r => r.1.bsink.r_ptr) = some 2032 ∧
    samples_at scenario_dev.bsource 1000 4 8 = [100, 200, 100, 200, 100, 200, 100, 200] ∧
    scenario_dev.bsource.r_ptr = 1000 ∧ scenario_dev.bsource.w_ptr = 1000 ∧
    scenario_dev.bsink.r_ptr = 2000 ∧ scenario_dev.bsink.w_ptr = 2000 := by
  decide

/-! ## Format dispatch: the claims -/

/-- C7.  With the two format constants distinct and representable in the
`uint16_t` fields of the table: volume_prepare returns 0 if and only if the
format of the source device and the format of the sink device are both one of
STREAM_FORMAT_S16_LE and STREAM_FORMAT_S32_LE; on success `scale_vol` is the
routine registered for exactly that pair and nothing else changes; for every
other pair it returns `-EINVAL` and leaves the device, `scale_vol` included,
unchanged. -/
theorem c7_prepare_dispatch (K : reef_consts) (dev : comp_dev)
    (h16 : K.STREAM_FORMAT_S16_LE < 65536) (h32 : K.STREAM_FORMAT_S32_LE < 65536)
    (hne : K.STREAM_FORMAT_S16_LE ≠ K.STREAM_FORMAT_S32_LE) :
    ((volume_prepare K dev).2 = 0 ↔
      (dev.bsource.source_format = K.STREAM_FORMAT_S16_LE ∨
        dev.bsource.source_format = K.STREAM_FORMAT_S32_LE) ∧
      (dev.bsink.sink_format = K.STREAM_FORMAT_S16_LE ∨
        dev.bsink.sink_format = K.STREAM_FORMAT_S32_LE)) ∧
    (dev.bsource.source_format = K.STREAM_FORMAT_S16_LE →
      dev.bsink.sink_format = K.STREAM_FORMAT_S16_LE →
      volume_prepare K dev
        = ({ dev with drvdata := { dev.drvdata with scale_vol := some vol_func.s16_to_s16 } }, 0)) ∧
    (dev.bsource.source_format = K.STREAM_FORMAT_S16_LE →
      dev.bsink.sink_format = K.STREAM_FORMAT_S32_LE →
      volume_prepare K dev
        = ({ dev with drvdata := { dev.drvdata with scale_vol := some vol_func.s16_to_s32 } }, 0)) ∧
    (dev.bsource.source_format = K.STREAM_FORMAT_S32_LE →
      dev.bsink.sink_format = K.STREAM_FORMAT_S16_LE →
      volume_prepare K dev
        = ({ dev with drvdata := { dev.drvdata with scale_vol := some vol_func.s32_to_s16 } }, 0)) ∧
    (dev.bsource.source_format = K.STREAM_FORMAT_S32_LE →
      dev.bsink.sink_format = K.STREAM_FORMAT_S32_LE →
      volume_prepare K dev
        = ({ dev with drvdata := { dev.drvdata with scale_vol := some vol_func.s32_to_s32 } }, 0)) ∧
    ((volume_prepare K dev).2 ≠ 0 → volume_prepare K dev = (dev, -EINVAL)) := by
  have hE : (-EINVAL : Int) ≠ 0 := by decide
  have hne2 : K.STREAM_FORMAT_S32_LE ≠ K.STREAM_FORMAT_S16_LE := fun h => hne h.symm
  unfold volume_prepare func_map
  simp only [volume_prepare_loop, Nat.mod_eq_of_lt h16, Nat.mod_eq_of_lt h32]
  by_cases a1 : dev.bsource.source_format = K.STREAM_FORMAT_S16_LE <;>
  by_cases a2 : dev.bsource.source_format = K.STREAM_FORMAT_S32_LE <;>
  by_cases b1 : dev.bsink.sink_format = K.STREAM_FORMAT_S16_LE <;>
  by_cases b2 : dev.bsink.sink_format = K.STREAM_FORMAT_S32_LE <;>
  simp_all

/-- C7 on a concrete pair: a 16-bit source device and a 32-bit sink device
select vol_s16_to_s32. -/
theorem c7_prepare_dispatch_witness :
    example_consts.STREAM_FORMAT_S16_LE < 65536 ∧
    example_consts.STREAM_FORMAT_S32_LE < 65536 ∧
    example_consts.STREAM_FORMAT_S16_LE ≠ example_consts.STREAM_FORMAT_S32_LE ∧
    volume_prepare example_consts silent_dev
      = ({ silent_dev with
             drvdata := { silent_dev.drvdata with scale_vol := some vol_func.s16_to_s32 } }, 0) :=
  ⟨by decide, by decide, by decide,
   (c7_prepare_dispatch example_consts silent_dev (by decide) (by decide) (by decide)).2.2.1
      rfl rfl⟩

/-! ## Commands: the loops -/

theorem volume_loop_spec (cv : comp_volume) (dev : comp_dev) (n : Nat) :
    (for_loop (fun (i : Nat) (d : comp_dev) => volume_set_chan d i (cv.volume i)) n dev).params
        = dev.params ∧
    (for_loop (fun (i : Nat) (d : comp_dev) => volume_set_chan d i (cv.volume i)) n dev).bsource
        = dev.bsource ∧
    (for_loop (fun (i : Nat) (d : comp_dev) => volume_set_chan d i (cv.volume i)) n dev).bsink
        = dev.bsink ∧
    (for_loop (fun (i : Nat) (d : comp_dev) =>
        volume_set_chan d i (cv.volume i)) n dev).drvdata.volume = dev.drvdata.volume ∧
    (for_loop (fun (i : Nat) (d : comp_dev) =>
        volume_set_chan d i (cv.volume i)) n dev).drvdata.mvolume = dev.drvdata.mvolume ∧
    (for_loop (fun (i : Nat) (d : comp_dev) =>
        volume_set_chan d i (cv.volume i)) n dev).drvdata.scale_vol = dev.drvdata.scale_vol ∧
    (for_loop (fun (i : Nat) (d : comp_dev) =>
        volume_set_chan d i (cv.volume i)) n dev).drvdata.volwork = dev.drvdata.volwork ∧
    (∀ i, (for_loop (fun (i : Nat) (d : comp_dev) =>
        volume_set_chan d i (cv.volume i)) n dev).drvdata.tvolume i
      = if i < n then cv.volume i % 65536 else dev.drvdata.tvolume i) := by
  induction n with
  | zero => simp [for_loop]
  | succ n ih =>
    obtain ⟨h1, h2, h3, h4, h5, h6, h7, h8⟩ := ih
    simp only [for_loop_succ]
    generalize for_loop (fun (i : Nat) (d : comp_dev) =>
      volume_set_chan d i (cv.volume i)) n dev = T at h1 h2 h3 h4 h5 h6 h7 h8 ⊢
    simp only [volume_set_chan]
    refine ⟨h1, h2, h3, h4, h5, h6, h7, ?_⟩
    intro i
    by_cases hi : i = n
    · subst hi
      simp
    · rw [Function.update_noteq hi, h8 i]
      by_cases hlt : i < n
      · simp [hlt, Nat.lt_succ_of_lt hlt]
      · have : ¬ i < n + 1 := by omega
        simp [hlt, this]

theorem mute_loop_spec (cv : comp_volume) (dev : comp_dev) (n : Nat) :
    (for_loop (fun (i : Nat) (d : comp_dev) =>
        if cv.volume i ≠ 0 then volume_set_chan_mute d i else d) n dev).params = dev.params ∧
    (for_loop (fun (i : Nat) (d : comp_dev) =>
        if cv.volume i ≠ 0 then volume_set_chan_mute d i else d) n dev).bsource = dev.bsource ∧
    (for_loop (fun (i : Nat) (d : comp_dev) =>
        if cv.volume i ≠ 0 then volume_set_chan_mute d i else d) n dev).bsink = dev.bsink ∧
    (for_loop (fun (i : Nat) (d : comp_dev) =>
        if cv.volume i ≠ 0 then volume_set_chan_mute d i else d) n dev).drvdata.volume
      = dev.drvdata.volume ∧
    (for_loop (fun (i : Nat) (d : comp_dev) =>
        if cv.volume i ≠ 0 then volume_set_chan_mute d i else d) n dev).drvdata.scale_vol
      = dev.drvdata.scale_vol ∧
    (for_loop (fun (i : Nat) (d : comp_dev) =>
        if cv.volume i ≠ 0 then volume_set_chan_mute d i else d) n dev).drvdata.volwork
      = dev.drvdata.volwork ∧
    (∀ i, (for_loop (fun (i : Nat) (d : comp_dev) =>
        if cv.volume i ≠ 0 then volume_set_chan_mute d i else d) n dev).drvdata.tvolume i
      = if i < n ∧ cv.volume i ≠ 0 then 0 else dev.drvdata.tvolume i) ∧
    (∀ i, (for_loop (fun (i : Nat) (d : comp_dev) =>
        if cv.volume i ≠ 0 then volume_set_chan_mute d i else d) n dev).drvdata.mvolume i
      = if i < n ∧ cv.volume i ≠ 0 then dev.drvdata.volume i else dev.drvdata.mvolume i) := by
  induction n with
  | zero => simp [for_loop]
  | succ n ih =>
    obtain ⟨h1, h2, h3, h4, h5, h6, h7, h8⟩ := ih
    simp only [for_loop_succ]
    generalize for_loop (fun (i : Nat) (d : comp_dev) =>
      if cv.volume i ≠ 0 then volume_set_chan_mute d i else d) n dev = T
      at h1 h2 h3 h4 h5 h6 h7 h8 ⊢
    by_cases hm : cv.volume n ≠ 0
    · rw [if_pos hm]
      simp only [volume_set_chan_mute]
      refine ⟨h1, h2, h3, h4, h5, h6, ?_, ?_⟩
      · intro i
        by_cases hi : i = n
        · subst hi
          simp [hm]
        · rw [Function.update_noteq hi, h7 i]
          have : (i < n + 1) ↔ (i < n) := by omega
          simp [this]
      · intro i
        by_cases hi : i = n
        · subst hi
          simp [hm, h4]
        · rw [Function.update_noteq hi, h8 i]
          have : (i < n + 1) ↔ (i < n) := by omega
          simp [this]
    · rw [if_neg hm]
      refine ⟨h1, h2, h3, h4, h5, h6, ?_, ?_⟩
      · intro i
        rw [h7 i]
        by_cases hi : i = n
        · subst hi
          simp [hm]
        · have : (i < n + 1) ↔ (i < n) := by omega
          simp [this]
      · intro i
        rw [h8 i]
        by_cases hi : i = n
        · subst hi
          simp [hm]
        · have : (i < n + 1) ↔ (i < n) := by omega
          simp [this]

theorem unmute_loop_spec (cv : comp_volume) (dev : comp_dev) (n : Nat) :
    (for_loop (fun (i : Nat) (d : comp_dev) =>
        if cv.volume i ≠ 0 then volume_set_chan_unmute d i else d) n dev).params = dev.params ∧
    (for_loop (fun (i : Nat) (d : comp_dev) =>
        if cv.volume i ≠ 0 then volume_set_chan_unmute d i else d) n dev).bsource
      = dev.bsource ∧
    (for_loop (fun (i : Nat) (d : comp_dev) =>
        if cv.volume i ≠ 0 then volume_set_chan_unmute d i else d) n dev).bsink = dev.bsink ∧
    (for_loop (fun (i : Nat) (d : comp_dev) =>
        if cv.volume i ≠ 0 then volume_set_chan_unmute d i else d) n dev).drvdata.volume
      = dev.drvdata.volume ∧
    (for_loop (fun (i : Nat) (d : comp_dev) =>
        if cv.volume i ≠ 0 then volume_set_chan_unmute d i else d) n dev).drvdata.mvolume
      = dev.drvdata.mvolume ∧
    (for_loop (fun (i : Nat) (d : comp_dev) =>
        if cv.volume i ≠ 0 then volume_set_chan_unmute d i else d) n dev).drvdata.scale_vol
      = dev.drvdata.scale_vol ∧
    (for_loop (fun (i : Nat) (d : comp_dev) =>
        if cv.volume i ≠ 0 then volume_set_chan_unmute d i else d) n dev).drvdata.volwork
      = dev.drvdata.volwork ∧
    (∀ i, (for_loop (fun (i : Nat) (d : comp_dev) =>
        if cv.volume i ≠ 0 then volume_set_chan_unmute d i else d) n dev).drvdata.tvolume i
      = if i < n ∧ cv.volume i ≠ 0 then dev.drvdata.mvolume i else dev.drvdata.tvolume i) := by
  induction n with
  | zero => simp [for_loop]
  | succ n ih =>
    obtain ⟨h1, h2, h3, h4, h5, h6, h7, h8⟩ := ih
    simp only [for_loop_succ]
    generalize for_loop (fun (i : Nat) (d : comp_dev) =>
      if cv.volume i ≠ 0 then volume_set_chan_unmute d i else d) n dev = T
      at h1 h2 h3 h4 h5 h6 h7 h8 ⊢
    by_cases hm : cv.volume n ≠ 0
    · rw [if_pos hm]
      simp only [volume_set_chan_unmute]
      refine ⟨h1, h2, h3, h4, h5, h6, h7, ?_⟩
      intro i
      by_cases hi : i = n
      · subst hi
        simp [hm, h5]
      · rw [Function.update_noteq hi, h8 i]
        have : (i < n + 1) ↔ (i < n) := by omega
        simp [this]
    · rw [if_neg hm]
      refine ⟨h1, h2, h3, h4, h5, h6, h7, ?_⟩
      intro i
      rw [h8 i]
      by_cases hi : i = n
      · subst hi
        simp [hm]
      · have : (i < n + 1) ↔ (i < n) := by omega
        simp [this]

/-! ## Commands: the claims -/

theorem volume_cmd_volume_spec (K : reef_consts) (dev : comp_dev) (cv : comp_volume) :
    (volume_cmd K dev K.COMP_CMD_VOLUME cv).2 = 0 ∧
    (∀ i, (volume_cmd K dev K.COMP_CMD_VOLUME cv).1.drvdata.tvolume i
      = if i < dev.params.channels then cv.volume i % 65536 else dev.drvdata.tvolume i) ∧
    (volume_cmd K dev K.COMP_CMD_VOLUME cv).1.drvdata.volume = dev.drvdata.volume ∧
    (volume_cmd K dev K.COMP_CMD_VOLUME cv).1.drvdata.mvolume = dev.drvdata.mvolume ∧
    (volume_cmd K dev K.COMP_CMD_VOLUME cv).1.params = dev.params := by
  obtain ⟨h1, -, -, h4, h5, -, -, h8⟩ := volume_loop_spec cv dev dev.params.channels
  unfold volume_cmd
  rw [if_pos rfl]
  exact ⟨rfl, h8, h4, h5, h1⟩

/-- C8, the code at unity gain.  On the device with 2 channels, the command
COMP_CMD_VOLUME with the levels 65536 (unity) and 70000, both in [0, 2^24],
returns 0 and leaves the target gains 0 and 4464: the level passes through the
`uint16_t` parameter of volume_set_chan and is reduced modulo 2^16. -/
theorem c8_set_volume_truncates :
    (volume_cmd example_consts scenario_dev example_consts.COMP_CMD_VOLUME
      { volume := chan_of_list [65536, 70000] }).2 = 0 ∧
    (volume_cmd example_consts scenario_dev example_consts.COMP_CMD_VOLUME
      { volume := chan_of_list [65536, 70000] }).1.drvdata.tvolume 0 = 0 ∧
    (volume_cmd example_consts scenario_dev example_consts.COMP_CMD_VOLUME
      { volume := chan_of_list [65536, 70000] }).1.drvdata.tvolume 1 = 4464 ∧
    scenario_dev.params.channels = 2 ∧
    chan_of_list [65536, 70000] 0 = 65536 ∧ chan_of_list [65536, 70000] 1 = 70000 := by
  decide

/-- C9.  volume_cmd with COMP_CMD_MUTE returns 0; for every channel
`i < channels` whose mask entry is nonzero the pre-mute gain becomes the
current gain and the target becomes 0; for every channel whose mask entry is
zero and every channel `>= channels` target and pre-mute gain are unchanged;
no current gain changes. -/
theorem c9_mute_masked_channels (K : reef_consts) (dev : comp_dev) (cv : comp_volume)
    (hne : K.COMP_CMD_MUTE ≠ K.COMP_CMD_VOLUME) :
    (volume_cmd K dev K.COMP_CMD_MUTE cv).2 = 0 ∧
    (∀ i, i < dev.params.channels → cv.volume i ≠ 0 →
      (volume_cmd K dev K.COMP_CMD_MUTE cv).1.drvdata.mvolume i = dev.drvdata.volume i ∧
      (volume_cmd K dev K.COMP_CMD_MUTE cv).1.drvdata.tvolume i = 0) ∧
    (∀ i, cv.volume i = 0 ∨ dev.params.channels ≤ i →
      (volume_cmd K dev K.COMP_CMD_MUTE cv).1.drvdata.tvolume i = dev.drvdata.tvolume i ∧
      (volume_cmd K dev K.COMP_CMD_MUTE cv).1.drvdata.mvolume i = dev.drvdata.mvolume i) ∧
    (∀ i, (volume_cmd K dev K.COMP_CMD_MUTE cv).1.drvdata.volume i = dev.drvdata.volume i) := by
  obtain ⟨-, -, -, h4, -, -, h7, h8⟩ := mute_loop_spec cv dev dev.params.channels
  unfold volume_cmd
  rw [if_neg hne, if_pos rfl]
  simp only [schedule_volwork]
  refine ⟨trivial, ?_, ?_, ?_⟩
  · intro i hi hm
    rw [h7 i, h8 i]
    simp [hi, hm]
  · intro i hi
    rw [h7 i, h8 i]
    rcases hi with hz | hge
    · simp [hz]
    · have : ¬ i < dev.params.channels := by omega
      simp [this]
  · intro i
    rw [h4]

/-- C9 on a concrete command: muting channel 1 of the two channels with gains
32768 and 65536 saves 65536 as pre-mute gain of channel 1 and sets its target
to 0. -/
theorem c9_mute_masked_channels_witness :
    example_consts.COMP_CMD_MUTE ≠ example_consts.COMP_CMD_VOLUME ∧
    (volume_cmd example_consts scenario_dev example_consts.COMP_CMD_MUTE
      { volume := chan_of_list [0, 1] }).1.drvdata.mvolume 1 = 65536 ∧
    (volume_cmd example_consts scenario_dev example_consts.COMP_CMD_MUTE
      { volume := chan_of_list [0, 1] }).1.drvdata.tvolume 1 = 0 :=
  ⟨by decide,
   (c9_mute_masked_channels example_consts scenario_dev { volume := chan_of_list [0, 1] }
      (by decide)).2.1 1 (by decide) (by decide)⟩

/-- C10.  volume_cmd with COMP_CMD_UNMUTE returns 0; for every channel
`i < channels` whose mask entry is nonzero the target becomes the pre-mute
gain; the targets of the channels whose mask entry is zero (and of the
channels `>= channels`), and the current and pre-mute gains of every channel,
are unchanged. -/
theorem c10_unmute_masked_channels (K : reef_consts) (dev : comp_dev) (cv : comp_volume)
    (hne1 : K.COMP_CMD_UNMUTE ≠ K.COMP_CMD_VOLUME)
    (hne2 : K.COMP_CMD_UNMUTE ≠ K.COMP_CMD_MUTE) :
    (volume_cmd K dev K.COMP_CMD_UNMUTE cv).2 = 0 ∧
    (∀ i, i < dev.params.channels → cv.volume i ≠ 0 →
      (volume_cmd K dev K.COMP_CMD_UNMUTE cv).1.drvdata.tvolume i = dev.drvdata.mvolume i) ∧
    (∀ i, cv.volume i = 0 ∨ dev.params.channels ≤ i →
      (volume_cmd K dev K.COMP_CMD_UNMUTE cv).1.drvdata.tvolume i = dev.drvdata.tvolume i) ∧
    (∀ i, (volume_cmd K dev K.COMP_CMD_UNMUTE cv).1.drvdata.volume i = dev.drvdata.volume i ∧
      (volume_cmd K dev K.COMP_CMD_UNMUTE cv).1.drvdata.mvolume i = dev.drvdata.mvolume i) := by
  obtain ⟨-, -, -, h4, h5, -, -, h8⟩ := unmute_loop_spec cv dev dev.params.channels
  unfold volume_cmd
  rw [if_neg hne1, if_neg hne2, if_pos rfl]
  simp only [schedule_volwork]
  refine ⟨trivial, ?_, ?_, ?_⟩
  · intro i hi hm
    rw [h8 i]
    simp [hi, hm]
  · intro i hi
    rw [h8 i]
    rcases hi with hz | hge
    · simp [hz]
    · have : ¬ i < dev.params.channels := by omega
      simp [this]
  · intro i
    rw [h4, h5]
    exact ⟨rfl, rfl⟩

/-- C10 on a concrete command: unmuting channel 0 of the muted device, whose
pre-mute gain is 32768 and whose target is 0, sets the target back to 32768. -/
theorem c10_unmute_masked_channels_witness :
    example_consts.COMP_CMD_UNMUTE ≠ example_consts.COMP_CMD_VOLUME ∧
    example_consts.COMP_CMD_UNMUTE ≠ example_consts.COMP_CMD_MUTE ∧
    muted_dev.drvdata.tvolume 0 = 0 ∧
    (volume_cmd example_consts muted_dev example_consts.COMP_CMD_UNMUTE
      { volume := chan_of_list [1, 0] }).1.drvdata.tvolume 0 = 32768 :=
  ⟨by decide, by decide, by decide,
   (c10_unmute_masked_channels example_consts muted_dev { volume := chan_of_list [1, 0] }
      (by decide) (by decide)).2.1 0 (by decide) (by decide)⟩

/-! ## Volume ramp: the loop -/

theorem vol_work_chan_eq (i : Nat) (cd : comp_data) (a : Nat) :
    vol_work_chan i (cd, a)
      = ({ cd with
            volume := Function.update cd.volume i (ramp_step (cd.volume i) (cd.tvolume i)).1 },
         if (ramp_step (cd.volume i) (cd.tvolume i)).2 = true then 1 else a) := by
  unfold vol_work_chan ramp_step
  by_cases h1 : cd.volume i = cd.tvolume i
  · have hself := Function.update_eq_self i cd.volume
    rw [h1] at hself
    simp [h1, hself]
  · by_cases h2 : cd.volume i < cd.tvolume i
    · by_cases h3 : (cd.volume i + VOL_RAMP_STEP) % 4294967296 > cd.tvolume i
      · simp [h1, h2, h3]
      · simp [h1, h2, h3]
    · by_cases h3 : (cd.volume i + 4294967296 - VOL_RAMP_STEP) % 4294967296 < cd.tvolume i
      · simp [h1, h2, h3]
      · simp [h1, h2, h3]

theorem vol_work_loop_spec (cd : comp_data) (a n : Nat) :
    (for_loop vol_work_chan n (cd, a)).1
      = { cd with
          volume := fun i =>
            if i < n then (ramp_step (cd.volume i) (cd.tvolume i)).1 else cd.volume i } ∧
    ((for_loop vol_work_chan n (cd, a)).2 ≠ 0 ↔
      a ≠ 0 ∨ ∃ i, i < n ∧ (ramp_step (cd.volume i) (cd.tvolume i)).2 = true) := by
  induction n with
  | zero => simp [for_loop]
  | succ n ih =>
    obtain ⟨h1, h2⟩ := ih
    rw [for_loop_succ]
    generalize for_loop vol_work_chan n (cd, a) = T at h1 h2 ⊢
    obtain ⟨T1, T2⟩ := T
    simp only at h1 h2
    rw [vol_work_chan_eq]
    subst h1
    simp only [Nat.lt_irrefl, if_false]
    constructor
    · congr 1
      funext i
      by_cases hi : i = n
      · subst hi
        simp
      · rw [Function.update_noteq hi]
        have : (i < n + 1) ↔ (i < n) := by omega
        simp [this]
    · by_cases hs : (ramp_step (cd.volume n) (cd.tvolume n)).2 = true
      · simp only [hs, if_true]
        constructor
        · intro _
          exact Or.inr ⟨n, Nat.lt_succ_self n, hs⟩
        · intro _
          decide
      · have hs2 : (ramp_step (cd.volume n) (cd.tvolume n)).2 = false := by simpa using hs
        simp only [hs2, Bool.false_eq_true, if_false]
        rw [h2]
        constructor
        · rintro (h | ⟨i, hi, hi2⟩)
          · exact Or.inl h
          · exact Or.inr ⟨i, Nat.lt_succ_of_lt hi, hi2⟩
        · rintro (h | ⟨i, hi, hi2⟩)
          · exact Or.inl h
          · rcases Nat.lt_succ_iff_lt_or_eq.mp hi with hlt | heq
            · exact Or.inr ⟨i, hlt, hi2⟩
            · subst heq
              exact absurd hi2 hs

/-- One invocation of `vol_work`, channel by channel: every channel
`i < channels` gets the gain `ramp_step` computes from its current and target
gain, nothing else changes, and the value returned is `VOL_RAMP_MS` exactly
when `ramp_step` sets `again` for some channel, and 0 otherwise. -/
theorem vol_work_spec (dev : comp_dev) :
    (vol_work dev).1
      = { dev with
          drvdata := { dev.drvdata with
            volume := fun i =>
              if i < dev.params.channels
              then (ramp_step (dev.drvdata.volume i) (dev.drvdata.tvolume i)).1
              else dev.drvdata.volume i } } ∧
    ((vol_work dev).2 = VOL_RAMP_MS ↔
      ∃ i, i < dev.params.channels ∧
        (ramp_step (dev.drvdata.volume i) (dev.drvdata.tvolume i)).2 = true) ∧
    ((vol_work dev).2 = 0 ↔
      ∀ i, i < dev.params.channels →
        (ramp_step (dev.drvdata.volume i) (dev.drvdata.tvolume i)).2 = false) := by
  obtain ⟨h1, h2⟩ := vol_work_loop_spec dev.drvdata 0 dev.params.channels
  have h3 : (for_loop vol_work_chan dev.params.channels (dev.drvdata, 0)).2 ≠ 0 ↔
      ∃ i, i < dev.params.channels ∧
        (ramp_step (dev.drvdata.volume i) (dev.drvdata.tvolume i)).2 = true := by
    rw [h2]
    simp
  unfold vol_work
  simp only [h1]
  refine ⟨trivial, ?_, ?_⟩
  · by_cases hr : (for_loop vol_work_chan dev.params.channels (dev.drvdata, 0)).2 ≠ 0
    · rw [if_pos hr]
      exact ⟨fun _ => h3.mp hr, fun _ => rfl⟩
    · rw [if_neg hr]
      exact ⟨fun h => absurd h (by decide), fun h => absurd (h3.mpr h) hr⟩
  · by_cases hr : (for_loop vol_work_chan dev.params.channels (dev.drvdata, 0)).2 ≠ 0
    · rw [if_pos hr]
      constructor
      · intro h
        exact absurd h (by decide)
      · intro h
        obtain ⟨i, hi, hi2⟩ := h3.mp hr
        rw [h i hi] at hi2
        exact absurd hi2 (by decide)
    · rw [if_neg hr]
      constructor
      · intro _ i hi
        by_cases hb : (ramp_step (dev.drvdata.volume i) (dev.drvdata.tvolume i)).2 = true
        · exact absurd (h3.mpr ⟨i, hi, hb⟩) hr
        · simpa using hb
      · intro _
        rfl

theorem vol_work_iter_succ (n : Nat) (dev : comp_dev) :
    vol_work_iter (n + 1) dev = (vol_work (vol_work_iter n dev)).1 := rfl

theorem vol_work_frame (dev : comp_dev) :
    (vol_work dev).1.params = dev.params ∧
    (vol_work dev).1.drvdata.tvolume = dev.drvdata.tvolume ∧
    (vol_work dev).1.drvdata.mvolume = dev.drvdata.mvolume ∧
    (vol_work dev).1.drvdata.scale_vol = dev.drvdata.scale_vol ∧
    (vol_work dev).1.drvdata.volwork = dev.drvdata.volwork ∧
    (vol_work dev).1.bsource = dev.bsource ∧
    (vol_work dev).1.bsink = dev.bsink ∧
    (∀ i, (vol_work dev).1.drvdata.volume i
      = if i < dev.params.channels
        then (ramp_step (dev.drvdata.volume i) (dev.drvdata.tvolume i)).1
        else dev.drvdata.volume i) := by
  rw [(vol_work_spec dev).1]
  exact ⟨rfl, rfl, rfl, rfl, rfl, rfl, rfl, fun _ => rfl⟩

theorem vol_work_iter_frame (n : Nat) (dev : comp_dev) :
    (vol_work_iter n dev).params = dev.params ∧
    (vol_work_iter n dev).drvdata.tvolume = dev.drvdata.tvolume ∧
    (vol_work_iter n dev).drvdata.mvolume = dev.drvdata.mvolume := by
  induction n with
  | zero => exact ⟨rfl, rfl, rfl⟩
  | succ n ih =>
    obtain ⟨h1, h2, h3⟩ := ih
    obtain ⟨f1, f2, f3, -⟩ := vol_work_frame (vol_work_iter n dev)
    rw [vol_work_iter_succ]
    exact ⟨f1.trans h1, f2.trans h2, f3.trans h3⟩

/-! ## Volume ramp: the claims -/

/-- C13, the code on the ramp from 0 to 65536.  On a device with one channel,
current gain 0 and target gain 65536, the current gain after `k` consecutive
invocations of vol_work is `2048 * k` for every `k <= 32`, so it is exactly
65536 after 32 invocations; but each of the invocations 1 to 32 returns
VOL_RAMP_MS, and only invocation 33 returns 0: a step that lands exactly on
the target still sets `again`. -/
theorem c13_ramp_stops_one_late :
    (∀ k, k ≤ 32 →
      (vol_work_iter k (ramp_dev 1 [0] [65536])).drvdata.volume 0 = 2048 * k) ∧
    (∀ k, k < 32 → vol_work_ret (k + 1) (ramp_dev 1 [0] [65536]) = VOL_RAMP_MS) ∧
    (vol_work_iter 32 (ramp_dev 1 [0] [65536])).drvdata.volume 0 = 65536 ∧
    vol_work_ret 32 (ramp_dev 1 [0] [65536]) = 2 ∧
    vol_work_ret 33 (ramp_dev 1 [0] [65536]) = 0 := by
  decide

/-- C14, the code on a mute from the gain 1000.  On a device with one channel,
current gain 1000 and target gain 0 (both within [0, 2^24]), the first
invocation of vol_work leaves the current gain 4294966248 (1000 - 2048 modulo
2^32), and after any number `n` of consecutive invocations the current gain is
congruent to 1000 modulo 2048, hence different from the target 0, and the next
invocation returns VOL_RAMP_MS: no invocation ever returns 0. -/
theorem c14_mute_never_converges (n : Nat) :
    (vol_work_iter 1 (ramp_dev 1 [1000] [0])).drvdata.volume 0 = 4294966248 ∧
    (vol_work_iter n (ramp_dev 1 [1000] [0])).drvdata.volume 0 % 2048 = 1000 ∧
    (vol_work_iter n (ramp_dev 1 [1000] [0])).drvdata.volume 0
      ≠ (vol_work_iter n (ramp_dev 1 [1000] [0])).drvdata.tvolume 0 ∧
    vol_work_ret (n + 1) (ramp_dev 1 [1000] [0]) = VOL_RAMP_MS := by
  have hinv : ∀ m, (vol_work_iter m (ramp_dev 1 [1000] [0])).drvdata.volume 0 % 2048 = 1000 ∧
      (vol_work_iter m (ramp_dev 1 [1000] [0])).drvdata.volume 0 < 4294967296 := by
    intro m
    induction m with
    | zero => decide
    | succ m ih =>
      obtain ⟨i1, i2⟩ := ih
      obtain ⟨p, t, -⟩ := vol_work_iter_frame m (ramp_dev 1 [1000] [0])
      have hv := (vol_work_frame (vol_work_iter m (ramp_dev 1 [1000] [0]))).2.2.2.2.2.2.2 0
      rw [p, t] at hv
      rw [vol_work_iter_succ, hv]
      generalize (vol_work_iter m (ramp_dev 1 [1000] [0])).drvdata.volume 0 = v at i1 i2
      have hc : (0 : Nat) < (ramp_dev 1 [1000] [0]).params.channels := by decide
      have ht : (ramp_dev 1 [1000] [0]).drvdata.tvolume 0 = 0 := by decide
      rw [if_pos hc, ht]
      unfold ramp_step VOL_RAMP_STEP
      have h1 : ¬ v = 0 := by omega
      have h2 : ¬ v < 0 := by omega
      have h3 : ¬ (v + 4294967296 - 2048) % 4294967296 < 0 := by omega
      simp only [h1, h2, h3, if_false]
      omega
  obtain ⟨p, t, -⟩ := vol_work_iter_frame n (ramp_dev 1 [1000] [0])
  have ht : (ramp_dev 1 [1000] [0]).drvdata.tvolume 0 = 0 := by decide
  obtain ⟨i1, i2⟩ := hinv n
  refine ⟨by decide, i1, ?_, ?_⟩
  · rw [t, ht]
    omega
  · unfold vol_work_ret
    rw [Nat.add_sub_cancel, (vol_work_spec _).2.1]
    refine ⟨0, by rw [p]; decide, ?_⟩
    rw [t, ht]
    generalize (vol_work_iter n (ramp_dev 1 [1000] [0])).drvdata.volume 0 = v at i1 i2
    unfold ramp_step VOL_RAMP_STEP
    have h1 : ¬ v = 0 := by omega
    have h2 : ¬ v < 0 := by omega
    have h3 : ¬ (v + 4294967296 - 2048) % 4294967296 < 0 := by omega
    simp only [h1, h2, h3, if_false]

/-- C17, the code on a ramp down from the gain 1000.  On a device with one
channel, current gain 1000 and target gain 0 (both within [0, 2^24]), one
invocation of vol_work leaves the current gain 4294966248: it is neither
1000 - 2048 clamped to the target 0 nor between the target and the old
current gain, it is farther from the target than before, and it is above
2^24. -/
theorem c17_ramp_down_wraps :
    (vol_work (ramp_dev 1 [1000] [0])).1.drvdata.volume 0 = 4294966248 ∧
    (ramp_dev 1 [1000] [0]).drvdata.volume 0 = 1000 ∧
    (ramp_dev 1 [1000] [0]).drvdata.tvolume 0 = 0 ∧
    (ramp_dev 1 [1000] [0]).params.channels = 1 ∧
    ¬ ((vol_work (ramp_dev 1 [1000] [0])).1.drvdata.volume 0 ≤ 1000) ∧
    ¬ ((vol_work (ramp_dev 1 [1000] [0])).1.drvdata.volume 0 ≤ 16777216) := by
  decide

/-- C18, the code on a step that lands on the target.  On a device with one
channel, current gain 0 and target gain 2048, one invocation of vol_work
returns VOL_RAMP_MS although afterwards the current gain of the channel equals
its target, so no channel is still ramping; the next invocation returns 0. -/
theorem c18_continue_on_exact_landing :
    (vol_work (ramp_dev 1 [0] [2048])).2 = VOL_RAMP_MS ∧
    (∀ i, i < (ramp_dev 1 [0] [2048]).params.channels →
      (vol_work (ramp_dev 1 [0] [2048])).1.drvdata.volume i
        = (vol_work (ramp_dev 1 [0] [2048])).1.drvdata.tvolume i) ∧
    (vol_work (vol_work (ramp_dev 1 [0] [2048])).1).2 = 0 := by
  decide

theorem ramp_step_up (c t : Nat) (hct : c ≤ t) (ht : t ≤ 16777216) :
    (ramp_step c t).1 = min (c + 2048) t ∧ ((ramp_step c t).2 = true → c < t) ∧
    (c = t → (ramp_step c t).2 = false) := by
  unfold ramp_step VOL_RAMP_STEP
  have hmod : (c + 2048) % 4294967296 = c + 2048 := Nat.mod_eq_of_lt (by omega)
  rw [hmod]
  by_cases h1 : c = t
  · subst h1
    simp
  · have h2 : c < t := by omega
    by_cases h3 : c + 2048 > t
    · simp only [h1, h2, h3, if_true, if_false]
      refine ⟨by omega, fun _ => trivial, fun h => h.elim⟩
    · simp only [h1, h2, h3, if_true, if_false]
      refine ⟨by omega, fun _ => trivial, fun h => h.elim⟩

theorem foldl_max_le (f : Nat → Nat) (l : List Nat) (m0 : Nat) :
    m0 ≤ l.foldl (fun m i => max m (f i)) m0 ∧
    ∀ x, x ∈ l → f x ≤ l.foldl (fun m i => max m (f i)) m0 := by
  induction l generalizing m0 with
  | nil => simp
  | cons a l ih =>
    obtain ⟨h1, h2⟩ := ih (max m0 (f a))
    simp only [List.foldl_cons, List.mem_cons]
    refine ⟨le_trans (le_max_left _ _) h1, ?_⟩
    rintro x (hx | hx)
    · subst hx
      exact le_trans (le_max_right _ _) h1
    · exact h2 x hx

theorem ramp_up_invocations_ge (dev : comp_dev) (i : Nat) (hi : i < dev.params.channels) :
    (dev.drvdata.tvolume i - dev.drvdata.volume i + 2047) / 2048 ≤ ramp_up_invocations dev := by
  unfold ramp_up_invocations
  exact (foldl_max_le
    (fun i => (dev.drvdata.tvolume i - dev.drvdata.volume i + 2047) / 2048)
    (List.range dev.params.channels) 0).2 i (List.mem_range.mpr hi)

theorem vol_work_iter_ramp_up (dev : comp_dev)
    (hup : ∀ i, i < dev.params.channels →
      dev.drvdata.volume i ≤ dev.drvdata.tvolume i ∧ dev.drvdata.tvolume i ≤ 16777216)
    (n i : Nat) (hi : i < dev.params.channels) :
    (vol_work_iter n dev).drvdata.volume i
      = min (dev.drvdata.volume i + 2048 * n) (dev.drvdata.tvolume i) := by
  induction n with
  | zero =>
    have := (hup i hi).1
    simp only [vol_work_iter, Nat.mul_zero, Nat.add_zero]
    omega
  | succ n ih =>
    obtain ⟨p, t, -⟩ := vol_work_iter_frame n dev
    have hv := (vol_work_frame (vol_work_iter n dev)).2.2.2.2.2.2.2 i
    rw [p, t, if_pos hi, ih] at hv
    rw [vol_work_iter_succ, hv]
    obtain ⟨h1, h2⟩ := hup i hi
    rw [(ramp_step_up _ _ (by omega) h2).1]
    omega

theorem vol_work_at_target (dev : comp_dev)
    (hat : ∀ i, i < dev.params.channels → dev.drvdata.volume i = dev.drvdata.tvolume i) :
    vol_work dev = (dev, 0) := by
  obtain ⟨h1, -, h3⟩ := vol_work_spec dev
  have hstep : ∀ i, i < dev.params.channels →
      ramp_step (dev.drvdata.volume i) (dev.drvdata.tvolume i) = (dev.drvdata.volume i, false) := by
    intro i hi
    unfold ramp_step
    rw [if_pos (hat i hi)]
  apply Prod.ext
  · rw [h1]
    have hfun : (fun i => if i < dev.params.channels
        then (ramp_step (dev.drvdata.volume i) (dev.drvdata.tvolume i)).1
        else dev.drvdata.volume i) = dev.drvdata.volume := by
      funext i
      by_cases hi : i < dev.params.channels
      · rw [if_pos hi, hstep i hi]
      · rw [if_neg hi]
    rw [hfun]
  · rw [h3]
    intro i hi
    rw [hstep i hi]

/-- C19.  For every state in which each channel `i < channels` has
`current i <= target i <= 2^24`, with `N` the maximum over the channels of
`ceil((target i - current i) / 2048)`: after `N` consecutive invocations of
vol_work every channel has its current gain equal to its target; after any
number of invocations no current gain exceeds its target; some invocation
among the first `N + 1` returns 0; and from `N` invocations on every further
invocation returns 0 and changes nothing. -/
theorem c19_ramp_up_bound (dev : comp_dev)
    (hup : ∀ i, i < dev.params.channels →
      dev.drvdata.volume i ≤ dev.drvdata.tvolume i ∧ dev.drvdata.tvolume i ≤ 16777216) :
    (∀ i, i < dev.params.channels →
      (vol_work_iter (ramp_up_invocations dev) dev).drvdata.volume i
        = (vol_work_iter (ramp_up_invocations dev) dev).drvdata.tvolume i ∧
      (vol_work_iter (ramp_up_invocations dev) dev).drvdata.tvolume i = dev.drvdata.tvolume i) ∧
    (∀ n i, i < dev.params.channels →
      (vol_work_iter n dev).drvdata.volume i ≤ dev.drvdata.tvolume i) ∧
    (∃ m, 1 ≤ m ∧ m ≤ ramp_up_invocations dev + 1 ∧ vol_work_ret m dev = 0) ∧
    (∀ n, ramp_up_invocations dev ≤ n →
      vol_work (vol_work_iter n dev) = (vol_work_iter n dev, 0)) := by
  have hreach : ∀ n, ramp_up_invocations dev ≤ n → ∀ i, i < dev.params.channels →
      (vol_work_iter n dev).drvdata.volume i = dev.drvdata.tvolume i := by
    intro n hn i hi
    rw [vol_work_iter_ramp_up dev hup n i hi]
    have hN := ramp_up_invocations_ge dev i hi
    have := (hup i hi).1
    omega
  have hstop : ∀ n, ramp_up_invocations dev ≤ n →
      vol_work (vol_work_iter n dev) = (vol_work_iter n dev, 0) := by
    intro n hn
    obtain ⟨p, t, -⟩ := vol_work_iter_frame n dev
    apply vol_work_at_target
    intro i hi
    rw [p] at hi
    rw [t]
    exact hreach n hn i hi
  refine ⟨?_, ?_, ?_, hstop⟩
  · intro i hi
    obtain ⟨-, t, -⟩ := vol_work_iter_frame (ramp_up_invocations dev) dev
    rw [t]
    exact ⟨hreach _ (Nat.le_refl _) i hi, rfl⟩
  · intro n i hi
    rw [vol_work_iter_ramp_up dev hup n i hi]
    exact Nat.min_le_right _ _
  · refine ⟨ramp_up_invocations dev + 1, by omega, Nat.le_refl _, ?_⟩
    unfold vol_work_ret
    rw [Nat.add_sub_cancel, hstop _ (Nat.le_refl _)]

/-- C19 on a concrete ramp: two channels ramping from 0 to 65536 and from 100
to 5000 need `N = 32` invocations; after 32 invocations channel 1 is at 5000
and invocation 33 returns 0. -/
theorem c19_ramp_up_bound_witness :
    (∀ i, i < (ramp_dev 2 [0, 100] [65536, 5000]).params.channels →
      (ramp_dev 2 [0, 100] [65536, 5000]).drvdata.volume i
        ≤ (ramp_dev 2 [0, 100] [65536, 5000]).drvdata.tvolume i ∧
      (ramp_dev 2 [0, 100] [65536, 5000]).drvdata.tvolume i ≤ 16777216) ∧
    ramp_up_invocations (ramp_dev 2 [0, 100] [65536, 5000]) = 32 ∧
    (vol_work_iter (ramp_up_invocations (ramp_dev 2 [0, 100] [65536, 5000]))
      (ramp_dev 2 [0, 100] [65536, 5000])).drvdata.volume 1
      = (vol_work_iter (ramp_up_invocations (ramp_dev 2 [0, 100] [65536, 5000]))
          (ramp_dev 2 [0, 100] [65536, 5000])).drvdata.tvolume 1 ∧
    vol_work (vol_work_iter 32 (ramp_dev 2 [0, 100] [65536, 5000]))
      = (vol_work_iter 32 (ramp_dev 2 [0, 100] [65536, 5000]), 0) :=
  ⟨by decide, by decide,
   ((c19_ramp_up_bound (ramp_dev 2 [0, 100] [65536, 5000]) (by decide)).1 1 (by decide)).1,
   (c19_ramp_up_bound (ramp_dev 2 [0, 100] [65536, 5000]) (by decide)).2.2.2 32 (by decide)⟩

/-! ## Command sequences: the claims -/

theorem volume_cmd_mute_spec (K : reef_consts) (dev : comp_dev) (cv : comp_volume)
    (hne : K.COMP_CMD_MUTE ≠ K.COMP_CMD_VOLUME) :
    (volume_cmd K dev K.COMP_CMD_MUTE cv).2 = 0 ∧
    (∀ i, (volume_cmd K dev K.COMP_CMD_MUTE cv).1.drvdata.tvolume i
      = if i < dev.params.channels ∧ cv.volume i ≠ 0 then 0 else dev.drvdata.tvolume i) ∧
    (∀ i, (volume_cmd K dev K.COMP_CMD_MUTE cv).1.drvdata.mvolume i
      = if i < dev.params.channels ∧ cv.volume i ≠ 0 then dev.drvdata.volume i
        else dev.drvdata.mvolume i) ∧
    (volume_cmd K dev K.COMP_CMD_MUTE cv).1.drvdata.volume = dev.drvdata.volume ∧
    (volume_cmd K dev K.COMP_CMD_MUTE cv).1.params = dev.params := by
  obtain ⟨h1, -, -, h4, -, -, h7, h8⟩ := mute_loop_spec cv dev dev.params.channels
  unfold volume_cmd
  rw [if_neg hne, if_pos rfl]
  exact ⟨rfl, h7, h8, h4, h1⟩

theorem volume_cmd_unmute_spec (K : reef_consts) (dev : comp_dev) (cv : comp_volume)
    (hne1 : K.COMP_CMD_UNMUTE ≠ K.COMP_CMD_VOLUME)
    (hne2 : K.COMP_CMD_UNMUTE ≠ K.COMP_CMD_MUTE) :
    (volume_cmd K dev K.COMP_CMD_UNMUTE cv).2 = 0 ∧
    (∀ i, (volume_cmd K dev K.COMP_CMD_UNMUTE cv).1.drvdata.tvolume i
      = if i < dev.params.channels ∧ cv.volume i ≠ 0 then dev.drvdata.mvolume i
        else dev.drvdata.tvolume i) ∧
    (volume_cmd K dev K.COMP_CMD_UNMUTE cv).1.drvdata.mvolume = dev.drvdata.mvolume ∧
    (volume_cmd K dev K.COMP_CMD_UNMUTE cv).1.drvdata.volume = dev.drvdata.volume ∧
    (volume_cmd K dev K.COMP_CMD_UNMUTE cv).1.params = dev.params := by
  obtain ⟨h1, -, -, h4, h5, -, -, h8⟩ := unmute_loop_spec cv dev dev.params.channels
  unfold volume_cmd
  rw [if_neg hne1, if_neg hne2, if_pos rfl]
  exact ⟨rfl, h8, h5, h4, h1⟩

/-- C11, counterexample.  On a device with one channel whose current and
target gain are 0, the commands COMP_CMD_VOLUME with the level 1000,
COMP_CMD_MUTE and COMP_CMD_UNMUTE of channel 0 leave the target 0, not 1000:
the mute saves the current gain, which is still 0, and the unmute restores
that. -/
theorem c11_round_trip_counterexample :
    (volume_mute_unmute example_consts (ramp_dev 1 [0] [0])
      { volume := chan_of_list [1000] } { volume := chan_of_list [1] }).drvdata.tvolume 0 = 0 ∧
    (volume_cmd example_consts (ramp_dev 1 [0] [0]) example_consts.COMP_CMD_VOLUME
      { volume := chan_of_list [1000] }).1.drvdata.tvolume 0 = 1000 ∧
    chan_of_list [1000] 0 = 1000 ∧
    0 < (ramp_dev 1 [0] [0]).params.channels ∧
    (volume_mute_unmute example_consts (ramp_dev 1 [0] [0])
      { volume := chan_of_list [1000] } { volume := chan_of_list [1] }).drvdata.tvolume 0
      ≠ chan_of_list [1000] 0 := by
  decide

/-- C11, amended.  For every component state, gain vector `v` and mask, after
the commands COMP_CMD_VOLUME(v), COMP_CMD_MUTE(mask), COMP_CMD_UNMUTE(mask):
the target of every channel `i < channels` whose mask entry is nonzero equals
the current gain of that channel (the mute saves the current gain, not the
target); the target of every channel `i < channels` whose mask entry is zero
equals `v i`, for levels below 2^16; and the current gain of every channel is
what it was before the three commands. -/
theorem c11_round_trip_restores_current (K : reef_consts) (dev : comp_dev)
    (v mask : comp_volume)
    (hmv : K.COMP_CMD_MUTE ≠ K.COMP_CMD_VOLUME)
    (huv : K.COMP_CMD_UNMUTE ≠ K.COMP_CMD_VOLUME)
    (hum : K.COMP_CMD_UNMUTE ≠ K.COMP_CMD_MUTE) :
    (∀ i, i < dev.params.channels → mask.volume i ≠ 0 →
      (volume_mute_unmute K dev v mask).drvdata.tvolume i = dev.drvdata.volume i) ∧
    (∀ i, i < dev.params.channels → mask.volume i = 0 → v.volume i < 65536 →
      (volume_mute_unmute K dev v mask).drvdata.tvolume i = v.volume i) ∧
    (∀ i, (volume_mute_unmute K dev v mask).drvdata.volume i = dev.drvdata.volume i) := by
  obtain ⟨-, a2, a3, a4, a5⟩ := volume_cmd_volume_spec K dev v
  obtain ⟨-, b2, b3, b4, b5⟩ :=
    volume_cmd_mute_spec K (volume_cmd K dev K.COMP_CMD_VOLUME v).1 mask hmv
  obtain ⟨-, c2, c3, c4, c5⟩ := volume_cmd_unmute_spec K
    (volume_cmd K (volume_cmd K dev K.COMP_CMD_VOLUME v).1 K.COMP_CMD_MUTE mask).1 mask huv hum
  unfold volume_mute_unmute
  refine ⟨?_, ?_, ?_⟩
  · intro i hi hm
    rw [c2 i, b5, a5, if_pos ⟨hi, hm⟩, b3 i, a5, if_pos ⟨hi, hm⟩, a3]
  · intro i hi hm hv
    have hn : ¬ (i < dev.params.channels ∧ mask.volume i ≠ 0) := fun h => h.2 hm
    rw [c2 i, b5, a5, if_neg hn, b2 i, a5, if_neg hn, a2 i, if_pos hi]
    exact Nat.mod_eq_of_lt hv
  · intro i
    rw [c4, b4, a3]

/-- C11, amended, on a concrete sequence: with current gains 32768 and 65536,
setting the levels 1000 and 2000 and then muting and unmuting channel 1 leaves
the target of channel 1 at its current gain 65536 and the target of channel 0
at 1000. -/
theorem c11_round_trip_restores_current_witness :
    example_consts.COMP_CMD_MUTE ≠ example_consts.COMP_CMD_VOLUME ∧
    example_consts.COMP_CMD_UNMUTE ≠ example_consts.COMP_CMD_VOLUME ∧
    example_consts.COMP_CMD_UNMUTE ≠ example_consts.COMP_CMD_MUTE ∧
    (volume_mute_unmute example_consts scenario_dev
      { volume := chan_of_list [1000, 2000] } { volume := chan_of_list [0, 1] }).drvdata.tvolume 1
      = scenario_dev.drvdata.volume 1 ∧
    (volume_mute_unmute example_consts scenario_dev
      { volume := chan_of_list [1000, 2000] } { volume := chan_of_list [0, 1] }).drvdata.tvolume 0
      = 1000 :=
  ⟨by decide, by decide, by decide,
   (c11_round_trip_restores_current example_consts scenario_dev
      { volume := chan_of_list [1000, 2000] } { volume := chan_of_list [0, 1] }
      (by decide) (by decide) (by decide)).1 1 (by decide) (by decide),
   (c11_round_trip_restores_current example_consts scenario_dev
      { volume := chan_of_list [1000, 2000] } { volume := chan_of_list [0, 1] }
      (by decide) (by decide) (by decide)).2.1 0 (by decide) (by decide) (by decide)⟩

/-- C12.  For every command code other than COMP_CMD_VOLUME, COMP_CMD_MUTE and
COMP_CMD_UNMUTE, volume_cmd returns `-EINVAL` (which is not 0) and leaves the
device as it is: no current, target or pre-mute gain changes and the ramp work
item is not scheduled; for each of the three recognised codes it returns 0. -/
theorem c12_unknown_command (K : reef_consts) (dev : comp_dev) (cmd : Int) (cv : comp_volume) :
    (cmd ≠ K.COMP_CMD_VOLUME → cmd ≠ K.COMP_CMD_MUTE → cmd ≠ K.COMP_CMD_UNMUTE →
      volume_cmd K dev cmd cv = (dev, -EINVAL) ∧
      (volume_cmd K dev cmd cv).2 ≠ 0 ∧
      (volume_cmd K dev cmd cv).1.drvdata.volume = dev.drvdata.volume ∧
      (volume_cmd K dev cmd cv).1.drvdata.tvolume = dev.drvdata.tvolume ∧
      (volume_cmd K dev cmd cv).1.drvdata.mvolume = dev.drvdata.mvolume ∧
      (volume_cmd K dev cmd cv).1.drvdata.volwork = dev.drvdata.volwork) ∧
    (volume_cmd K dev K.COMP_CMD_VOLUME cv).2 = 0 ∧
    (volume_cmd K dev K.COMP_CMD_MUTE cv).2 = 0 ∧
    (volume_cmd K dev K.COMP_CMD_UNMUTE cv).2 = 0 := by
  refine ⟨?_, ?_, ?_, ?_⟩
  · intro h1 h2 h3
    have h : volume_cmd K dev cmd cv = (dev, -EINVAL) := by
      unfold volume_cmd
      rw [if_neg h1, if_neg h2, if_neg h3]
    have hE : (-EINVAL : Int) ≠ 0 := by decide
    rw [h]
    exact ⟨rfl, hE, rfl, rfl, rfl, rfl⟩
  · unfold volume_cmd
    rw [if_pos rfl]
  · unfold volume_cmd
    by_cases h : K.COMP_CMD_MUTE = K.COMP_CMD_VOLUME
    · rw [if_pos h]
    · rw [if_neg h, if_pos rfl]
  · unfold volume_cmd
    by_cases h : K.COMP_CMD_UNMUTE = K.COMP_CMD_VOLUME
    · rw [if_pos h]
    · rw [if_neg h]
      by_cases h2 : K.COMP_CMD_UNMUTE = K.COMP_CMD_MUTE
      · rw [if_pos h2]
      · rw [if_neg h2, if_pos rfl]

/-- C12 on a concrete command: the code 7 is none of the three recognised
codes 100, 101, 102 and is answered with -22, the device unchanged. -/
theorem c12_unknown_command_witness :
    (7 : Int) ≠ example_consts.COMP_CMD_VOLUME ∧
    (7 : Int) ≠ example_consts.COMP_CMD_MUTE ∧
    (7 : Int) ≠ example_consts.COMP_CMD_UNMUTE ∧
    volume_cmd example_consts scenario_dev 7 { volume := chan_of_list [1, 1] }
      = (scenario_dev, -22) :=
  ⟨by decide, by decide, by decide,
   ((c12_unknown_command example_consts scenario_dev 7 { volume := chan_of_list [1, 1] }).1
      (by decide) (by decide) (by decide)).1⟩

/-! ## Per-period copy: wrap tests and the unset routine -/

/-- C15, the code on two placements of the buffers.  (1) Source buffer at
1000, sink buffer at 2000 with 96 bytes and its write cursor at 2032, inside
the buffer and 64 bytes before its end: volume_copy resets the sink write
cursor to the base 2000, because 2032 is not below source base + sink
capacity = 1096.  (2) Source buffer at 2000, sink buffer at 1000 with 64 bytes
and its write cursor at the end 1064: volume_copy leaves it at 1064, because
1064 is below source base + sink capacity = 2064.  (3) The cursors the call
does advance are the source write cursor and the sink read cursor, which are
not wrapped: after two calls the source write cursor of the first placement
stands at 1064, the end of the 64-byte source buffer. -/
theorem c15_sink_wrap_uses_source_base :
    (volume_copy (placed_dev (placed_buffer 1000 64 1000 1000)
        (placed_buffer 2000 96 2000 2032))).map (fun r => r.1.bsink.w_ptr) = some 2000 ∧
    2000 ≤ 2032 ∧ 2032 + 32 < 2000 + 96 ∧
    (volume_copy (placed_dev (placed_buffer 2000 64 2000 2000)
        (placed_buffer 1000 64 1000 1064))).map (fun r => r.1.bsink.w_ptr) = some 1064 ∧
    1064 = 1000 + 64 ∧
    ((volume_copy (placed_dev (placed_buffer 1000 64 1000 1000)
        (placed_buffer 2000 96 2000 2032))).bind (fun r => volume_copy r.1)).map
      (fun r => (r.1.bsource.w_ptr, r.1.bsource.r_ptr, r.1.bsink.r_ptr))
      = some (1064, 1000, 2064) := by
  decide

theorem volume_prepare_loop_fail (source_format sink_format : Nat) (cd : comp_data)
    (l : List comp_func_map)
    (h : (volume_prepare_loop source_format sink_format cd l).2 ≠ 0) :
    (volume_prepare_loop source_format sink_format cd l).1 = cd := by
  induction l with
  | nil => rfl
  | cons e rest ih =>
    unfold volume_prepare_loop at h ⊢
    by_cases h1 : source_format ≠ e.source
    · rw [if_pos h1] at h ⊢
      exact ih h
    · rw [if_neg h1] at h ⊢
      by_cases h2 : sink_format ≠ e.sink
      · rw [if_pos h2] at h ⊢
        exact ih h
      · rw [if_neg h2] at h
        exact absurd rfl h

theorem wrapped_source_fields (b : comp_buffer) :
    (if b.r_ptr ≥ b.addr + b.size then { b with r_ptr := b.addr } else b).mem = b.mem ∧
    (if b.r_ptr ≥ b.addr + b.size then { b with r_ptr := b.addr } else b).w_ptr = b.w_ptr ∧
    (if b.r_ptr ≥ b.addr + b.size then { b with r_ptr := b.addr } else b).addr = b.addr ∧
    (if b.r_ptr ≥ b.addr + b.size then { b with r_ptr := b.addr } else b).r_ptr
      = (if b.r_ptr ≥ b.addr + b.size then b.addr else b.r_ptr) := by
  by_cases h : b.r_ptr ≥ b.addr + b.size
  · simp [h]
  · simp [h]

theorem wrapped_sink_fields (b : comp_buffer) (bound : Nat) :
    (if b.w_ptr ≥ bound then { b with w_ptr := b.addr } else b).mem = b.mem ∧
    (if b.w_ptr ≥ bound then { b with w_ptr := b.addr } else b).r_ptr = b.r_ptr ∧
    (if b.w_ptr ≥ bound then { b with w_ptr := b.addr } else b).w_ptr
      = (if b.w_ptr ≥ bound then b.addr else b.w_ptr) := by
  by_cases h : b.w_ptr ≥ bound
  · simp [h]
  · simp [h]

/-- C16, counterexample.  volume_prepare has never succeeded on either device.
On the device volume_new returns from a block that holds no routine address,
and on the same device after a volume_prepare that failed with -22,
volume_copy yields no result at all.  On the device volume_new returns from a
block that still holds the address of vol_s32_to_s32, before and after the
failed volume_prepare, volume_copy returns 4 (period_frames), moves two
cursors by 32 bytes and overwrites the eight samples 5 of the source buffer
with 9.  In neither case is an error returned with the buffers unchanged. -/
theorem c16_uninitialized_copy_counterexample :
    new_dev.isSome = true ∧
    (new_dev.bind volume_copy).isSome = false ∧
    new_dev.map (fun d => (volume_prepare example_consts d).2) = some (-22) ∧
    (new_dev.bind (fun d => volume_copy (volume_prepare example_consts d).1)).isSome = false ∧
    stale_dev.map (fun d => (volume_prepare example_consts d).2) = some (-22) ∧
    stale_dev.map (fun d => (d.bsource.w_ptr, d.bsink.r_ptr, samples_at d.bsource 1000 4 8))
      = some (1000, 2000, [5, 5, 5, 5, 5, 5, 5, 5]) ∧
    (stale_dev.bind volume_copy).map (fun r => r.2) = some 4 ∧
    (stale_dev.bind volume_copy).map
      (fun r => (r.1.bsource.w_ptr, r.1.bsink.r_ptr, samples_at r.1.bsource 1000 4 8))
      = some (1032, 2032, [9, 9, 9, 9, 9, 9, 9, 9]) ∧
    (stale_dev.bind (fun d => volume_copy (volume_prepare example_consts d).1)).map
      (fun r => (r.2, r.1.bsource.w_ptr, r.1.bsink.r_ptr, samples_at r.1.bsource 1000 4 8))
      = some (4, 1032, 2032, [9, 9, 9, 9, 9, 9, 9, 9]) := by
  decide

/-- C16, amended.  volume_copy has no check of the selected routine and no
error return.  When `scale_vol` holds a routine, one call runs that routine
once over the `channels * period_frames` samples of a period with the current
gains, applies the two wrap tests and returns period_frames: sample `k` is
loaded at the read cursor of the buffer passed as the routine's source (the
sink buffer of the device), scaled with the gain of channel
`k / period_frames` and stored at the write cursor of the buffer passed as the
routine's sink (the source buffer of the device); storage outside the period
is untouched; these two cursors advance by the period; the source read cursor
and the sink write cursor only undergo their wrap tests; gains and parameters
are unchanged.  Every value volume_copy returns is period_frames and comes
from a call through a routine.  When `scale_vol` holds no routine the call
goes through the unset pointer and no result is defined.  A volume_prepare
that fails leaves the device, `scale_vol` included, exactly as it was, and
volume_new assigns nothing to `scale_vol`. -/
theorem c16_copy_unguarded (dev : comp_dev) :
    (∀ f, dev.drvdata.scale_vol = some f →
      ∃ d, volume_copy dev = some (d, (dev.params.period_frames : Int)) ∧
        (∀ k, k < dev.params.channels * dev.params.period_frames →
          d.bsource.mem (dev.bsource.w_ptr + f.dest_width * k)
            = f.sample (dev.bsink.mem (dev.bsink.r_ptr + f.src_width * k))
                (dev.drvdata.volume (k / dev.params.period_frames))) ∧
        (∀ q, q < dev.bsource.w_ptr ∨
            dev.bsource.w_ptr
              + f.dest_width * (dev.params.channels * dev.params.period_frames) ≤ q →
          d.bsource.mem q = dev.bsource.mem q) ∧
        d.bsource.w_ptr = dev.bsource.w_ptr
          + f.dest_width * (dev.params.channels * dev.params.period_frames) ∧
        d.bsink.r_ptr = dev.bsink.r_ptr
          + f.src_width * (dev.params.channels * dev.params.period_frames) ∧
        d.bsource.r_ptr
          = (if dev.bsource.r_ptr ≥ dev.bsource.addr + dev.bsource.size
             then dev.bsource.addr else dev.bsource.r_ptr) ∧
        d.bsink.w_ptr
          = (if dev.bsink.w_ptr ≥ dev.bsource.addr + dev.bsink.size
             then dev.bsink.addr else dev.bsink.w_ptr) ∧
        d.bsink.mem = dev.bsink.mem ∧
        d.drvdata = dev.drvdata ∧
        d.params = dev.params) ∧
    (∀ r, volume_copy dev = some r →
      r.2 = (dev.params.period_frames : Int) ∧ ∃ f, dev.drvdata.scale_vol = some f) ∧
    (dev.drvdata.scale_vol = none → volume_copy dev = none) ∧
    (∀ K, (volume_prepare K dev).2 ≠ 0 → (volume_prepare K dev).1 = dev) ∧
    (∀ d0 cd, (volume_new (some d0) (some cd)).map (fun d => d.drvdata.scale_vol)
      = some cd.scale_vol) := by
  refine ⟨?_, ?_, ?_, ?_, ?_⟩
  · intro f h
    obtain ⟨h1, h2, h3, h4, h5, h6, h7, h8, h9, h10, h11⟩ :=
      vol_scale_spec f.src_width f.dest_width f.sample (vol_func_dest_width_pos f)
        dev dev.bsource dev.bsink
    rw [← vol_func_call_eq] at h1 h2 h3 h4 h5 h6 h7 h8 h9 h10 h11
    unfold volume_copy
    simp only [h]
    generalize f.call dev dev.bsource dev.bsink = R at h1 h2 h3 h4 h5 h6 h7 h8 h9 h10 h11 ⊢
    obtain ⟨s1, s2, s3, s4⟩ := wrapped_source_fields R.1
    obtain ⟨k1, k2, k3⟩ := wrapped_sink_fields R.2
      ((if R.1.r_ptr ≥ R.1.addr + R.1.size then { R.1 with r_ptr := R.1.addr } else R.1).addr
        + R.2.size)
    refine ⟨_, rfl, ?_, ?_, ?_, ?_, ?_, ?_, ?_, rfl, rfl⟩
    · intro k hk
      show (if R.1.r_ptr ≥ R.1.addr + R.1.size
        then { R.1 with r_ptr := R.1.addr } else R.1).mem _ = _
      rw [s1]
      exact h1 k hk
    · intro q hq
      show (if R.1.r_ptr ≥ R.1.addr + R.1.size
        then { R.1 with r_ptr := R.1.addr } else R.1).mem _ = _
      rw [s1]
      exact h2 q hq
    · exact s2.trans h3
    · exact k2.trans h4
    · refine s4.trans ?_
      rw [h5, h6, h7]
    · refine k3.trans ?_
      rw [s3, h6, h8, h9, h10]
    · exact k1.trans h11
  · intro r h
    unfold volume_copy at h
    cases hs : dev.drvdata.scale_vol with
    | none =>
      simp only [hs] at h
      exact absurd h (by simp)
    | some f =>
      simp only [hs, Option.some.injEq] at h
      subst h
      exact ⟨rfl, f, rfl⟩
  · intro h
    unfold volume_copy
    simp only [h]
  · intro K hfail
    have hcd := volume_prepare_loop_fail dev.bsource.source_format dev.bsink.sink_format
      dev.drvdata (func_map K) hfail
    unfold volume_prepare
    simp only [hcd]
  · intro d0 cd
    rfl

/-- C16, amended, on concrete devices.  On the worked scenario (a routine is
selected) volume_copy returns 4, stores `(7 * 32768) >> 16 = 3` as sample 1 at
the source write cursor and moves the source write cursor and the sink read
cursor by 32 bytes; on a device without a routine it yields no result. -/
theorem c16_copy_unguarded_witness :
    scenario_dev.drvdata.scale_vol = some vol_func.s32_to_s32 ∧
    (∃ d, volume_copy scenario_dev = some (d, 4) ∧
      d.bsource.mem (1000 + 4 * 1) = 3 ∧ d.bsource.w_ptr = 1032 ∧ d.bsink.r_ptr = 2032) ∧
    (ramp_dev 1 [0] [0]).drvdata.scale_vol = none ∧
    volume_copy (ramp_dev 1 [0] [0]) = none := by
  refine ⟨rfl, ?_, rfl, (c16_copy_unguarded (ramp_dev 1 [0] [0])).2.2.1 rfl⟩
  obtain ⟨d, h, hm, -, hw, hr, -⟩ :=
    (c16_copy_unguarded scenario_dev).1 vol_func.s32_to_s32 rfl
  exact ⟨d, h, (hm 1 (by decide)).trans (by decide), hw.trans (by decide),
    hr.trans (by decide)⟩

/-! ## Baytrail DAI table: the claim -/

/-- C20.  For every identifier `u`, dai_get returns the first entry of the
three-element table whose `uuid` equals `u`: when it returns entry `i`, that
entry exists, its `uuid` is `u` and no entry before it has the `uuid` `u`; and
it returns NULL exactly when none of the three entries has the `uuid` `u`. -/
theorem c20_dai_get_first_match (B : baytrail_consts) (u : Nat) :
    (ssp B).length = 3 ∧
    (∀ i, dai_get B u = some i →
      ∃ d, (ssp B)[i]? = some d ∧ d.uuid = u ∧
        ∀ j e, j < i → (ssp B)[j]? = some e → e.uuid ≠ u) ∧
    (dai_get B u = none ↔ ∀ d, d ∈ ssp B → d.uuid ≠ u) := by
  unfold dai_get ssp
  simp only [dai_get_loop]
  by_cases h0 : B.UUID_SSP0 = u <;> by_cases h1 : B.UUID_SSP1 = u <;>
    by_cases h2 : B.UUID_SSP2 = u
  all_goals
    refine ⟨rfl, ?_, ?_⟩
    · intro i hi
      simp [h0, h1, h2] at hi <;>
      · subst hi
        refine ⟨_, rfl, ?_, ?_⟩
        · first | exact h0 | exact h1 | exact h2
        · intro j e hj he
          interval_cases j <;> simp at he <;> subst he <;> assumption
    · simp [h0, h1, h2]

/-- C20 on a concrete table with the identifiers 10, 11, 11: the identifier
11 resolves to entry 1, the first of the two entries that carry it. -/
theorem c20_dai_get_first_match_witness :
    dai_get example_baytrail 11 = some 1 ∧
    ∃ d, (ssp example_baytrail)[1]? = some d ∧ d.uuid = 11 ∧
      ∀ j e, j < 1 → (ssp example_baytrail)[j]? = some e → e.uuid ≠ 11 :=
  ⟨by decide, (c20_dai_get_first_match example_baytrail 11).2.1 1 (by decide)⟩

end Volume
